import Mathlib

/-!
Verification development for the open-remote-id-parser library (ORIP).

This file gives a shallow embedding, in Lean 4, of the core decode and
session pipeline of the library, translated from the C++ sources:

  - `src/protocols/astm_f3411.cpp`  (ASTM F3411 message decoder and BLE
    envelope extraction),
  - `src/protocols/wifi_decoder.cpp` (Wi-Fi Beacon / NAN envelope),
  - `src/core/session_manager.cpp`  (per-UAV session map and events),
  - the `RemoteIDParser::parse` facade (same translation unit as the
    session manager),
  - `src/analysis/anomaly_detector.cpp`,
  - `src/analysis/trajectory_analyzer.cpp`,
  - `src/utils/bit_reader.cpp`.

Modelling conventions:
  - byte buffers are `List Nat`; where the C++ type system guarantees a
    byte is below 256 and a theorem needs that fact, it appears as an
    explicit hypothesis;
  - C++ `double` / `float` arithmetic is modelled over `ℚ`; the quiet-NaN
    sentinels produced by the speed/direction decoders are modelled as
    `Option ℚ` with `none` for NaN;
  - `std::chrono::steady_clock::time_point` is a millisecond count `Nat`;
  - `size_t` arithmetic in the bit reader is modelled exactly, i.e.
    modulo `2 ^ 64`, because its overflow behaviour is under scrutiny;
  - the transcendental geodesic helpers (haversine distance, bearing,
    forward projection, `log10`) are not representable exactly over `ℚ`;
    every definition that uses them is parameterised by a `GeoFns`
    record, and every theorem about such a definition holds for every
    instantiation of `GeoFns`, hence in particular for the C++ one;
  - `std::hash` is implementation defined, so message hashing is a
    function parameter `hashFn`; identical `UAVObject`s always receive
    identical hashes because `hashFn` is a function;
  - the maps `std::unordered_map<...>` are association lists; callbacks
    are modelled by an explicit event trace: an emitted event stands for
    one invocation of the corresponding registered callback.
-/

namespace ORIP

/-! ## Data model (include/orip/types.h) -/

/-- `ProtocolType` from types.h. -/
inductive ProtocolType where
  | UNKNOWN
  | ASTM_F3411
  | ASD_STAN
  | CN_RID
  deriving Repr, DecidableEq, Inhabited

/-- `TransportType` from types.h. -/
inductive TransportType where
  | UNKNOWN
  | BT_LEGACY
  | BT_EXTENDED
  | WIFI_BEACON
  | WIFI_NAN
  deriving Repr, DecidableEq, Inhabited

/-- `UAVIdType::SERIAL_NUMBER` (types.h); id types are kept as raw codes
because the decoder materialises arbitrary nibbles with `static_cast`. -/
def UAVIdType.SERIAL_NUMBER : Nat := 1

/-- `UAVType::HELICOPTER_OR_MULTIROTOR` (types.h). -/
def UAVType.HELICOPTER_OR_MULTIROTOR : Nat := 2

/-- `LocationVector` from types.h.  Enumerated fields are raw codes;
NaN-able floats are `Option ℚ`. -/
structure LocationVector where
  valid : Bool
  latitude : ℚ
  longitude : ℚ
  altitude_baro : ℚ
  altitude_geo : ℚ
  height : ℚ
  height_ref : Nat
  speed_horizontal : Option ℚ
  speed_vertical : Option ℚ
  direction : Option ℚ
  h_accuracy : Nat
  v_accuracy : Nat
  speed_accuracy : Nat
  status : Nat
  timestamp_offset : Nat
  deriving Repr, DecidableEq, Inhabited

/-- Default-constructed `LocationVector` (all fields zero, invalid). -/
def LocationVector.init : LocationVector :=
  { valid := false, latitude := 0, longitude := 0, altitude_baro := 0
    altitude_geo := 0, height := 0, height_ref := 0
    speed_horizontal := some 0, speed_vertical := some 0, direction := some 0
    h_accuracy := 0, v_accuracy := 0, speed_accuracy := 0, status := 0
    timestamp_offset := 0 }

/-- `SystemInfo` from types.h. -/
structure SystemInfo where
  valid : Bool
  location_type : Nat
  operator_latitude : ℚ
  operator_longitude : ℚ
  area_ceiling : ℚ
  area_floor : ℚ
  area_count : Nat
  area_radius : Nat
  timestamp : Nat
  deriving Repr, DecidableEq, Inhabited

/-- Default-constructed `SystemInfo`. -/
def SystemInfo.init : SystemInfo :=
  { valid := false, location_type := 0, operator_latitude := 0
    operator_longitude := 0, area_ceiling := 0, area_floor := 0
    area_count := 1, area_radius := 0, timestamp := 0 }

/-- `SelfId` from types.h. -/
structure SelfId where
  valid : Bool
  description_type : Nat
  description : String
  deriving Repr, DecidableEq, Inhabited

/-- Default-constructed `SelfId`. -/
def SelfId.init : SelfId :=
  { valid := false, description_type := 0, description := "" }

/-- `OperatorId` from types.h. -/
structure OperatorId where
  valid : Bool
  id_type : Nat
  id : String
  deriving Repr, DecidableEq, Inhabited

/-- Default-constructed `OperatorId`. -/
def OperatorId.init : OperatorId :=
  { valid := false, id_type := 0, id := "" }

/-- `UAVObject` from types.h; `last_seen` is a millisecond instant. -/
structure UAVObject where
  id : String
  id_type : Nat
  uav_type : Nat
  protocol : ProtocolType
  transport : TransportType
  rssi : Int
  last_seen : Nat
  location : LocationVector
  system : SystemInfo
  self_id : SelfId
  operator_id : OperatorId
  auth_data : List Nat
  message_count : Nat
  deriving Repr, DecidableEq, Inhabited

/-- Default-constructed `UAVObject` (the model fixes `last_seen` at 0). -/
def UAVObject.init : UAVObject :=
  { id := "", id_type := 0, uav_type := 0, protocol := ProtocolType.UNKNOWN
    transport := TransportType.UNKNOWN, rssi := 0, last_seen := 0
    location := LocationVector.init, system := SystemInfo.init
    self_id := SelfId.init, operator_id := OperatorId.init
    auth_data := [], message_count := 0 }

/-- `DecodeResult` from astm_f3411.h; `type` is the raw message-type
nibble. -/
structure DecodeResult where
  success : Bool
  type : Nat
  error : String
  deriving Repr, DecidableEq, Inhabited

/-- `ParseResult` from types.h. -/
structure ParseResult where
  success : Bool
  is_remote_id : Bool
  protocol : ProtocolType
  error : String
  uav : UAVObject
  deriving Repr, DecidableEq, Inhabited

/-! ## Byte helpers (include/orip/bit_reader.h inline functions) -/

/-- `readLE16` at offset `i` of a byte buffer. -/
def readLE16 (data : List Nat) (i : Nat) : Nat :=
  data.getD i 0 + data.getD (i + 1) 0 * 256

/-- `readLE32` at offset `i` of a byte buffer. -/
def readLE32 (data : List Nat) (i : Nat) : Nat :=
  data.getD i 0 + data.getD (i + 1) 0 * 256 +
    data.getD (i + 2) 0 * 65536 + data.getD (i + 3) 0 * 16777216

/-- Reinterpretation of a 32-bit value as a signed `int32_t`. -/
def toInt32 (n : Nat) : Int :=
  let m := n % 4294967296
  if m < 2147483648 then (m : Int) else (m : Int) - 4294967296

/-- Reinterpretation of a byte as a signed `int8_t`. -/
def toInt8 (n : Nat) : Int :=
  let m := n % 256
  if m < 128 then (m : Int) else (m : Int) - 256

/-- `readLE32Signed` at offset `i`. -/
def readLE32Signed (data : List Nat) (i : Nat) : Int :=
  toInt32 (readLE32 data i)

/-- Build a Lean string from a list of byte values. -/
def bytesToString (bs : List Nat) : String :=
  String.mk (bs.map Char.ofNat)

/-- `std::string` construction from a NUL-terminated char buffer: the
bytes up to the first NUL. -/
def cStringBytes (bs : List Nat) : List Nat :=
  bs.takeWhile (fun b => b != 0)

/-- The trailing-trim loop used by the decoders: pop back while the last
character is a space or a NUL. -/
def trimTrailBytes (bs : List Nat) : List Nat :=
  (bs.reverse.dropWhile (fun b => b == 32 || b == 0)).reverse

/-- An ASCII text field as the decoders produce it: C-string capture
followed by trailing space/NUL trimming. -/
def asciiField (bs : List Nat) : String :=
  bytesToString (trimTrailBytes (cStringBytes bs))

/-- The `count` bytes of `data` starting at offset `i` (each read through
the in-bounds index, out-of-range positions give 0 exactly as they are
never read by the guarded C++ code). -/
def byteSlice (data : List Nat) (i count : Nat) : List Nat :=
  (List.range count).map (fun j => data.getD (i + j) 0)

namespace astm

/-! ## ASTM F3411 decoder (src/protocols/astm_f3411.cpp)

Constants: `MESSAGE_SIZE = 25`, `ODID_AD_TYPE = 0x16 = 22`,
`ODID_SERVICE_UUID = 0xFFFA = 65530`. -/

/-- `decodeLatitude`: `encoded * 1e-7` degrees. -/
def decodeLatitude (encoded : Int) : ℚ :=
  (encoded : ℚ) / 10000000

/-- `decodeLongitude`: `encoded * 1e-7` degrees. -/
def decodeLongitude (encoded : Int) : ℚ :=
  (encoded : ℚ) / 10000000

/-- `decodeAltitude`: raw 0 is the literal 0 m, otherwise
`raw * 0.5 - 1000` metres. -/
def decodeAltitude (encoded : Nat) : ℚ :=
  if encoded = 0 then 0 else (encoded : ℚ) * (1 / 2) + (-1000)

/-- `decodeSpeed`: 255 is the NaN sentinel; the multiplier bit selects
`raw * 0.75 + 255 * 0.25` over `raw * 0.25` m/s. -/
def decodeSpeed (encoded : Nat) (multiplier : Bool) : Option ℚ :=
  if encoded = 255 then none
  else if multiplier then some ((encoded : ℚ) * (3 / 4) + 255 * (1 / 4))
  else some ((encoded : ℚ) * (1 / 4))

/-- `decodeVerticalSpeed`: 63 is the NaN sentinel, otherwise
`raw * 0.5` m/s (signed). -/
def decodeVerticalSpeed (encoded : Int) : Option ℚ :=
  if encoded = 63 then none else some ((encoded : ℚ) * (1 / 2))

/-- `decodeDirection`: values above 360 are the NaN sentinel, otherwise
degrees.  (The argument is a `uint8_t` in the source, so the sentinel
branch is unreachable there.) -/
def decodeDirection (encoded : Nat) : Option ℚ :=
  if encoded > 360 then none else some (encoded : ℚ)

/-- `decodeBasicID`: byte 1 carries the id-type and aircraft-type
nibbles, bytes 2..21 the 20-character id. -/
def decodeBasicID (data : List Nat) (uav : UAVObject) : Bool × UAVObject :=
  let type_byte := data.getD 1 0
  (true, { uav with
    id_type := (type_byte / 16) % 16
    uav_type := type_byte % 16
    id := asciiField (byteSlice data 2 20) })

/-- `decodeLocation`: fills every field of the `LocationVector` from the
25-byte Location message and sets `valid`. -/
def decodeLocation (data : List Nat) (uav : UAVObject) : Bool × UAVObject :=
  let status_byte := data.getD 1 0
  let speed_mult := status_byte % 2 == 1
  let loc : LocationVector :=
    { valid := true
      status := (status_byte / 16) % 16
      height_ref := (status_byte / 4) % 2
      direction := decodeDirection (data.getD 2 0)
      speed_horizontal := decodeSpeed (data.getD 3 0) speed_mult
      speed_vertical := decodeVerticalSpeed (toInt8 (data.getD 4 0))
      latitude := decodeLatitude (readLE32Signed data 5)
      longitude := decodeLongitude (readLE32Signed data 9)
      altitude_baro := decodeAltitude (readLE16 data 13)
      altitude_geo := decodeAltitude (readLE16 data 15)
      height := decodeAltitude (readLE16 data 17)
      h_accuracy := (data.getD 19 0 / 16) % 16
      v_accuracy := data.getD 19 0 % 16
      speed_accuracy := data.getD 20 0 % 16
      timestamp_offset := readLE16 data 21 }
  (true, { uav with location := loc })

/-- `decodeAuth`: bytes 1..24 captured verbatim. -/
def decodeAuth (data : List Nat) (uav : UAVObject) : Bool × UAVObject :=
  (true, { uav with auth_data := byteSlice data 1 24 })

/-- `decodeSelfID`: description type byte and a 23-character text. -/
def decodeSelfID (data : List Nat) (uav : UAVObject) : Bool × UAVObject :=
  (true, { uav with self_id :=
    { valid := true
      description_type := data.getD 1 0
      description := asciiField (byteSlice data 2 23) } })

/-- `decodeSystem`: operator location, operating area and timestamp. -/
def decodeSystem (data : List Nat) (uav : UAVObject) : Bool × UAVObject :=
  (true, { uav with system :=
    { valid := true
      location_type := (data.getD 1 0 / 16) % 4
      operator_latitude := decodeLatitude (readLE32Signed data 2)
      operator_longitude := decodeLongitude (readLE32Signed data 6)
      area_count := readLE16 data 10
      area_radius := data.getD 12 0 * 10
      area_ceiling := decodeAltitude (readLE16 data 13)
      area_floor := decodeAltitude (readLE16 data 15)
      timestamp := readLE32 data 17 } })

/-- `decodeOperatorID`: operator-id type byte and a 20-character id. -/
def decodeOperatorID (data : List Nat) (uav : UAVObject) : Bool × UAVObject :=
  (true, { uav with operator_id :=
    { valid := true
      id_type := data.getD 1 0
      id := asciiField (byteSlice data 2 20) } })

/-- `decodeMessagePack` body, parameterised by the recursive call used
for sub-messages.  Byte 1 packs `(message size - 1)` in the high nibble
and the message count in the low nibble; a declared size other than
`MESSAGE_SIZE` rejects the pack. -/
def decodeMessagePackCore (recur : List Nat → UAVObject → DecodeResult × UAVObject)
    (data : List Nat) (uav : UAVObject) : Bool × UAVObject :=
  if data.length < 2 then (false, uav)
  else
    let pack_info := data.getD 1 0
    let msg_size := (pack_info / 16) % 16 + 1
    let msg_count := pack_info % 16
    if msg_size ≠ 25 then (false, uav)
    else (true, decodeMessagePackLoop recur data msg_count 2 uav)
where
  /-- The sub-message loop: decode while messages remain and a full
  25-byte slot fits before `len`. -/
  decodeMessagePackLoop (recur : List Nat → UAVObject → DecodeResult × UAVObject) :
      List Nat → Nat → Nat → UAVObject → UAVObject
    | _, 0, _, uav => uav
    | data, count + 1, offset, uav =>
      if offset + 25 ≤ data.length then
        decodeMessagePackLoop recur data count (offset + 25)
          (recur ((data.drop offset).take 25) uav).2
      else uav

/-- `decodeMessage` body: dispatch on the type nibble of byte 0,
parameterised by the recursive call used by the Message Pack path. -/
def decodeMessageCore (recur : List Nat → UAVObject → DecodeResult × UAVObject)
    (data : List Nat) (uav : UAVObject) : DecodeResult × UAVObject :=
  if data.length < 25 then
    ({ success := false, type := 0, error := "Message too short" }, uav)
  else
    let msg_type := (data.getD 0 0 / 16) % 16
    if msg_type = 0 ∨ msg_type = 1 ∨ msg_type = 2 ∨ msg_type = 3 ∨
        msg_type = 4 ∨ msg_type = 5 ∨ msg_type = 15 then
      let step : Bool × UAVObject :=
        if msg_type = 0 then decodeBasicID data uav
        else if msg_type = 1 then decodeLocation data uav
        else if msg_type = 2 then decodeAuth data uav
        else if msg_type = 3 then decodeSelfID data uav
        else if msg_type = 4 then decodeSystem data uav
        else if msg_type = 5 then decodeOperatorID data uav
        else decodeMessagePackCore recur data uav
      if step.1 then
        ({ success := true, type := msg_type, error := "" },
          { step.2 with message_count := step.2.message_count + 1 })
      else
        ({ success := false, type := msg_type, error := "Failed to decode message" },
          step.2)
    else
      ({ success := false, type := msg_type, error := "Unknown message type" }, uav)

/-- Fuel-indexed tying of the `decodeMessage` / `decodeMessagePack`
recursion.  The fuel only bounds the nesting depth of Message Packs; the
size check inside `decodeMessagePackCore` makes the recursive call dead,
so any positive fuel yields the C++ behaviour. -/
def decodeMessageFuel : Nat → List Nat → UAVObject → DecodeResult × UAVObject
  | 0, _, uav =>
    ({ success := false, type := 0, error := "Message too short" }, uav)
  | fuel + 1, data, uav => decodeMessageCore (decodeMessageFuel fuel) data uav

/-- `ASTM_F3411_Decoder::decodeMessage`. -/
def decodeMessage (data : List Nat) (uav : UAVObject) : DecodeResult × UAVObject :=
  decodeMessageFuel (data.length + 1) data uav

/-- The 16-bit service UUID read used by the legacy AD scans:
`payload[i+2] | payload[i+3] << 8` compared against `0xFFFA`. -/
def odidUuidAt (payload : List Nat) (i : Nat) : Bool :=
  payload.getD (i + 2) 0 + payload.getD (i + 3) 0 * 256 == 65530

/-- `isExtendedAdvertising`: a loose scan for the `0x16` AD type byte
immediately followed by the little-endian ODID UUID. -/
def isExtendedAdvertising (payload : List Nat) : Bool :=
  if payload.length < 7 then false
  else (List.range payload.length).any (fun i =>
    decide (i + 4 < payload.length) && payload.getD i 0 == 22 &&
    decide (i + 3 < payload.length) &&
    (payload.getD (i + 1) 0 + payload.getD (i + 2) 0 * 256 == 65530))

/-- The AD-structure walk of `isRemoteID`: terminate on a zero length or
an out-of-bounds length, answer true on a Service-Data AD carrying the
ODID UUID.  The fuel dominates the iteration count because `i` strictly
increases while it stays below the payload length. -/
def legacyHasODID : Nat → List Nat → Nat → Bool
  | 0, _, _ => false
  | fuel + 1, payload, i =>
    if i + 4 < payload.length then
      let len := payload.getD i 0
      if len = 0 ∨ i + len ≥ payload.length then false
      else if 4 ≤ len && payload.getD (i + 1) 0 == 22 && odidUuidAt payload i then
        true
      else legacyHasODID fuel payload (i + len + 1)
    else false

/-- `ASTM_F3411_Decoder::isRemoteID`. -/
def isRemoteID (payload : List Nat) : Bool :=
  if payload.length < 5 then false
  else if isExtendedAdvertising payload then true
  else legacyHasODID payload.length payload 0

/-- `findODIDData`: the same AD walk, returning the ODID byte slice
(after the AD type, UUID and one-byte message counter). -/
def findODIDGo : Nat → List Nat → Nat → Option (List Nat)
  | 0, _, _ => none
  | fuel + 1, payload, i =>
    if i + 4 < payload.length then
      let ad_len := payload.getD i 0
      if ad_len = 0 ∨ i + ad_len ≥ payload.length then none
      else if 4 ≤ ad_len && payload.getD (i + 1) 0 == 22 && odidUuidAt payload i then
        if ad_len < 3 then none
        else if ad_len - 3 > 0 then some ((payload.drop (i + 5)).take (ad_len - 4))
        else some ((payload.drop (i + 4)).take (ad_len - 3))
      else findODIDGo fuel payload (i + ad_len + 1)
    else none

/-- `decodeExtended`. -/
def decodeExtended (payload : List Nat) (uav : UAVObject) : DecodeResult × UAVObject :=
  match findODIDGo payload.length payload 0 with
  | none =>
    ({ success := false, type := 0,
       error := "No ODID data found in extended advertisement" }, uav)
  | some odid =>
    if odid.length < 25 then
      ({ success := false, type := 0, error := "ODID data too short" }, uav)
    else
      let r := decodeMessage odid uav
      if r.1.success then
        (r.1, { r.2 with protocol := ProtocolType.ASTM_F3411
                         transport := TransportType.BT_EXTENDED })
      else r

/-- The AD-structure walk of `decodeLegacy`: try to decode each matching
AD, continuing past short or undecodable ones. -/
def decodeLegacyGo : Nat → List Nat → Nat → UAVObject → DecodeResult × UAVObject
  | 0, _, _, uav =>
    ({ success := false, type := 0, error := "No valid ODID message found" }, uav)
  | fuel + 1, payload, i, uav =>
    if i + 4 < payload.length then
      let len := payload.getD i 0
      if len = 0 ∨ i + len ≥ payload.length then
        ({ success := false, type := 0, error := "No valid ODID message found" }, uav)
      else if 4 ≤ len && payload.getD (i + 1) 0 == 22 && odidUuidAt payload i then
        if len < 3 then decodeLegacyGo fuel payload (i + len + 1) uav
        else
          let msg :=
            if len - 3 > 0 then (payload.drop (i + 5)).take (len - 4)
            else (payload.drop (i + 4)).take (len - 3)
          if 25 ≤ msg.length then
            let r := decodeMessage msg uav
            if r.1.success then
              (r.1, { r.2 with protocol := ProtocolType.ASTM_F3411
                               transport := TransportType.BT_LEGACY })
            else decodeLegacyGo fuel payload (i + len + 1) r.2
          else decodeLegacyGo fuel payload (i + len + 1) uav
      else decodeLegacyGo fuel payload (i + len + 1) uav
    else
      ({ success := false, type := 0, error := "No valid ODID message found" }, uav)

/-- `decodeLegacy`. -/
def decodeLegacy (payload : List Nat) (uav : UAVObject) : DecodeResult × UAVObject :=
  if payload.length < 5 then
    ({ success := false, type := 0, error := "Payload too short" }, uav)
  else decodeLegacyGo payload.length payload 0 uav

/-- `ASTM_F3411_Decoder::decode`: try the extended-advertising path
first, fall back to the legacy path. -/
def decode (payload : List Nat) (uav : UAVObject) : DecodeResult × UAVObject :=
  if isExtendedAdvertising payload then
    let r := decodeExtended payload uav
    if r.1.success then
      (r.1, { r.2 with transport := TransportType.BT_EXTENDED })
    else decodeLegacy payload r.2
  else decodeLegacy payload uav

end astm

namespace wifi

/-! ## Wi-Fi decoder (src/protocols/wifi_decoder.cpp)

Constants: ASTM OUI `FA 0B BC`, vendor type `0x0D`, vendor-specific IE
id 221, NAN service id `88 69 19 9D 92 09`. -/

/-- ASTM OUI plus vendor-type match at offset `i`. -/
def ouiHit (p : List Nat) (i : Nat) : Bool :=
  p.getD i 0 == 250 && p.getD (i + 1) 0 == 11 &&
  p.getD (i + 2) 0 == 188 && p.getD (i + 3) 0 == 13

/-- NAN service id match at offset `i`. -/
def nanServiceIdAt (p : List Nat) (i : Nat) : Bool :=
  p.getD i 0 == 136 && p.getD (i + 1) 0 == 105 && p.getD (i + 2) 0 == 25 &&
  p.getD (i + 3) 0 == 157 && p.getD (i + 4) 0 == 146 && p.getD (i + 5) 0 == 9

/-- `WiFiDecoder::isRemoteID`. -/
def isRemoteID (p : List Nat) : Bool :=
  if p.length < 10 then false
  else
    (List.range p.length).any (fun i => decide (i + 6 < p.length) && ouiHit p i) ||
    (List.range p.length).any (fun i => decide (i + 6 < p.length) && nanServiceIdAt p i)

/-- `decodeASTMPayload`: length guard plus a single ASTM message decode. -/
def decodeASTMPayload (data : List Nat) (uav : UAVObject) : Bool × UAVObject :=
  if data.length < 25 then (false, uav)
  else
    let r := astm.decodeMessage data uav
    (r.1.success, r.2)

/-- `parseFrameHeader`: 24-byte 802.11 management header with subtype
beacon, probe-response or action. -/
def frameHeaderOK (p : List Nat) : Bool :=
  if p.length < 24 then false
  else
    let fc := readLE16 p 0
    if (fc / 4) % 4 ≠ 0 then false
    else
      let subtype := (fc / 16) % 16 * 16
      subtype == 128 || subtype == 80 || subtype == 208

/-- `findVendorIE` specialised to the 3-byte ASTM OUI: walk the IE list,
return the IE bytes after the OUI. -/
def findVendorIEGo : Nat → List Nat → Nat → Option (List Nat)
  | 0, _, _ => none
  | fuel + 1, data, offset =>
    if offset + 2 ≤ data.length then
      let ie_id := data.getD offset 0
      let ie_len := data.getD (offset + 1) 0
      if offset + 2 + ie_len > data.length then none
      else if ie_id == 221 && 3 ≤ ie_len && data.getD (offset + 2) 0 == 250 &&
          data.getD (offset + 3) 0 == 11 && data.getD (offset + 4) 0 == 188 then
        some ((data.drop (offset + 5)).take (ie_len - 3))
      else findVendorIEGo fuel data (offset + 2 + ie_len)
    else none

/-- `decodeBeacon`; the `String` component is the error text. -/
def decodeBeacon (p : List Nat) (uav : UAVObject) : Bool × UAVObject × String :=
  if p.length < 36 then (false, uav, "Frame too short for beacon")
  else if ¬ frameHeaderOK p then (false, uav, "Invalid 802.11 header")
  else
    let body := p.drop 36
    match findVendorIEGo p.length body 0 with
    | none => (false, uav, "No Remote ID vendor IE found")
    | some ie =>
      if ie.length > 1 then
        let step := decodeASTMPayload (ie.drop 1) uav
        if step.1 then
          (true, { step.2 with transport := TransportType.WIFI_BEACON
                               protocol := ProtocolType.ASTM_F3411 }, "")
        else (false, step.2, "Failed to decode ASTM payload")
      else (false, uav, "Vendor IE data too short")

/-- First `decodeNAN` scan: NAN service id followed by messages. -/
def nanLoopService : Nat → List Nat → Nat → UAVObject → Bool × UAVObject
  | 0, _, _, uav => (false, uav)
  | fuel + 1, p, i, uav =>
    if i + 6 + 25 ≤ p.length then
      if nanServiceIdAt p i then
        let step := decodeASTMPayload (p.drop (i + 6)) uav
        if step.1 then (true, step.2) else nanLoopService fuel p (i + 1) step.2
      else nanLoopService fuel p (i + 1) uav
    else (false, uav)

/-- Second `decodeNAN` scan: direct ASTM OUI lookup. -/
def nanLoopOUI : Nat → List Nat → Nat → UAVObject → Bool × UAVObject
  | 0, _, _, uav => (false, uav)
  | fuel + 1, p, i, uav =>
    if i + 4 + 25 ≤ p.length then
      if ouiHit p i then
        let step := decodeASTMPayload (p.drop (i + 4)) uav
        if step.1 then (true, step.2) else nanLoopOUI fuel p (i + 1) step.2
      else nanLoopOUI fuel p (i + 1) uav
    else (false, uav)

/-- `decodeNAN`. -/
def decodeNAN (p : List Nat) (uav : UAVObject) : Bool × UAVObject × String :=
  if p.length < 10 then (false, uav, "NAN frame too short")
  else
    let s1 := nanLoopService p.length p 0 uav
    if s1.1 then
      (true, { s1.2 with transport := TransportType.WIFI_NAN
                         protocol := ProtocolType.ASTM_F3411 }, "")
    else
      let s2 := nanLoopOUI p.length p 0 s1.2
      if s2.1 then
        (true, { s2.2 with transport := TransportType.WIFI_NAN
                           protocol := ProtocolType.ASTM_F3411 }, "")
      else (false, s2.2, "No valid NAN Remote ID data found")

end wifi

/-! ## Parser facade (`RemoteIDParser::parse`)

The model fixes the configuration at the `ParserConfig` defaults
(`enable_astm = true`, `enable_asd = false`, `enable_cn = false`,
`enable_deduplication = true`); the ASD-STAN and CN-RID branches of the
C++ dispatch are therefore dead and do not appear.  The session-manager
forwarding performed on success does not touch the returned
`ParseResult` and is modelled separately by the `SessionManager`
development below. -/

/-- The working `UAVObject` that `parse` constructs from the receiver
data of a frame. -/
def frameUav (rssi : Int) (transport : TransportType) (timestamp : Nat) : UAVObject :=
  { UAVObject.init with transport := transport, rssi := rssi, last_seen := timestamp }

/-- `RemoteIDParser::parse` under the default `ParserConfig`. -/
def parseFrame (payload : List Nat) (rssi : Int) (transport : TransportType)
    (timestamp : Nat) : ParseResult :=
  if payload.length = 0 then
    { success := false, is_remote_id := false, protocol := ProtocolType.UNKNOWN
      error := "Empty payload", uav := UAVObject.init }
  else
    let uav0 := frameUav rssi transport timestamp
    if astm.isRemoteID payload then
      let r := astm.decode payload uav0
      if r.1.success then
        { success := true, is_remote_id := true, protocol := ProtocolType.ASTM_F3411
          error := "", uav := r.2 }
      else
        { success := false, is_remote_id := true, protocol := ProtocolType.UNKNOWN
          error := r.1.error, uav := UAVObject.init }
    else if wifi.isRemoteID payload then
      let w :=
        if transport = TransportType.WIFI_NAN then wifi.decodeNAN payload uav0
        else
          let b := wifi.decodeBeacon payload uav0
          if b.1 then b else wifi.decodeNAN payload b.2.1
      if w.1 then
        { success := true, is_remote_id := true, protocol := w.2.1.protocol
          error := "", uav := w.2.1 }
      else
        { success := false, is_remote_id := true, protocol := ProtocolType.UNKNOWN
          error := w.2.2, uav := UAVObject.init }
    else
      { success := false, is_remote_id := false, protocol := ProtocolType.UNKNOWN
        error := "No matching protocol decoder", uav := UAVObject.init }

/-! ## Session manager (src/core/session_manager.cpp)

The `std::unordered_map` is an association list; the three callback
slots are modelled by an event trace returned by each operation, where
one event stands for one synchronous invocation of the corresponding
registered callback, in emission order, before the operation returns. -/

/-- One callback invocation, carrying the `UAVObject` handed to the
callback. -/
inductive SMEvent where
  | newUAV (u : UAVObject)
  | updUAV (u : UAVObject)
  | timeoutUAV (u : UAVObject)
  deriving Repr, DecidableEq

/-- Session-manager state: the id-keyed map and the configured expiry in
milliseconds. -/
structure SessionManager where
  uavs : List (String × UAVObject)
  timeout : Nat
  deriving Repr, DecidableEq

/-- Map lookup (`uavs_.find`). -/
def lookupUAV (l : List (String × UAVObject)) (id : String) : Option UAVObject :=
  match l with
  | [] => none
  | (k, v) :: rest => if k = id then some v else lookupUAV rest id

/-- In-place value replacement for an existing key. -/
def replaceUAV (l : List (String × UAVObject)) (id : String) (v : UAVObject) :
    List (String × UAVObject) :=
  match l with
  | [] => []
  | (k, w) :: rest =>
    if k = id then (k, v) :: rest else (k, w) :: replaceUAV rest id v

/-- The merge half of `SessionManager::update`: refresh signal data,
bump the message counter, and overwrite each partial record only when
the incoming one is valid (auth data: only when non-empty). -/
def mergeUAV (existing incoming : UAVObject) : UAVObject :=
  { existing with
    rssi := incoming.rssi
    last_seen := incoming.last_seen
    message_count := existing.message_count + 1
    location := if incoming.location.valid then incoming.location else existing.location
    system := if incoming.system.valid then incoming.system else existing.system
    self_id := if incoming.self_id.valid then incoming.self_id else existing.self_id
    operator_id :=
      if incoming.operator_id.valid then incoming.operator_id else existing.operator_id
    auth_data :=
      if incoming.auth_data.isEmpty then existing.auth_data else incoming.auth_data }

/-- `SessionManager::update`: returns `is_new`, the new state, and the
events fired during the call. -/
def SessionManager.update (sm : SessionManager) (uav : UAVObject) :
    Bool × SessionManager × List SMEvent :=
  if uav.id = "" then (false, sm, [])
  else
    match lookupUAV sm.uavs uav.id with
    | none =>
      (true, { sm with uavs := (uav.id, uav) :: sm.uavs }, [SMEvent.newUAV uav])
    | some existing =>
      let merged := mergeUAV existing uav
      (false, { sm with uavs := replaceUAV sm.uavs uav.id merged },
        [SMEvent.updUAV merged])

/-- The entries `SessionManager::cleanup` removes at instant `now`:
those whose elapsed time since `last_seen` exceeds the timeout. -/
def expiredEntries (now : Nat) (sm : SessionManager) : List (String × UAVObject) :=
  sm.uavs.filter (fun p => decide (now - p.2.last_seen > sm.timeout))

/-- `SessionManager::cleanup`: remove the expired entries, returning the
removed ids, the new state, and one timeout event per removed entry. -/
def SessionManager.cleanup (sm : SessionManager) (now : Nat) :
    List String × SessionManager × List SMEvent :=
  (((expiredEntries now sm).map Prod.fst),
   { sm with uavs := sm.uavs.filter (fun p => ¬ (now - p.2.last_seen > sm.timeout)) },
   (expiredEntries now sm).map (fun p => SMEvent.timeoutUAV p.2))

/-- `SessionManager::clear`: drop every entry, firing no events. -/
def SessionManager.clear (sm : SessionManager) : SessionManager × List SMEvent :=
  ({ sm with uavs := [] }, [])

namespace analysis

/-! ## Anomaly detector (src/analysis/anomaly_detector.cpp)

The geodesic helpers (`calculateDistance`, i.e. the haversine formula,
and the `log10` used by the path-loss model) are transcendental real
functions; the embedding abstracts them into a `GeoFns` record, and the
theorems below hold for all instantiations, hence for the C++ one. -/

/-- The abstracted real-analysis helpers: great-circle distance, decimal
logarithm, initial bearing, and great-circle forward projection.  The
last two are used only by the trajectory analyzer. -/
structure GeoFns where
  dist : ℚ → ℚ → ℚ → ℚ → ℚ
  log10 : ℚ → ℚ
  bearing : ℚ → ℚ → ℚ → ℚ → ℚ
  projectLat : ℚ → ℚ → ℚ → ℚ → ℚ
  projectLon : ℚ → ℚ → ℚ → ℚ → ℚ

/-- A trivial `GeoFns` instantiation used by concrete witnesses. -/
def geoZero : GeoFns :=
  { dist := fun _ _ _ _ => 0, log10 := fun _ => 0, bearing := fun _ _ _ _ => 0
    projectLat := fun la _ _ _ => la, projectLon := fun _ lo _ _ => lo }

/-- `AnomalyType` from anomaly_detector.h. -/
inductive AnomalyType where
  | NONE
  | SPEED_IMPOSSIBLE
  | POSITION_JUMP
  | ALTITUDE_SPIKE
  | REPLAY_ATTACK
  | SIGNAL_ANOMALY
  | TIMESTAMP_ANOMALY
  | ID_SPOOF
  deriving Repr, DecidableEq, Inhabited

/-- `AnomalySeverity` from anomaly_detector.h. -/
inductive AnomalySeverity where
  | INFO
  | WARNING
  | CRITICAL
  deriving Repr, DecidableEq, Inhabited

/-- `Anomaly` record. -/
structure Anomaly where
  type : AnomalyType
  severity : AnomalySeverity
  uav_id : String
  description : String
  confidence : ℚ
  detected_at : Nat
  expected_value : ℚ
  actual_value : ℚ
  deriving Repr, DecidableEq, Inhabited

/-- `AnomalyConfig`. -/
structure AnomalyConfig where
  max_horizontal_speed : ℚ
  max_vertical_speed : ℚ
  max_acceleration : ℚ
  max_position_jump_m : ℚ
  max_altitude_change_rate : ℚ
  replay_window_ms : Nat
  min_duplicate_count : Nat
  rssi_distance_tolerance : ℚ
  min_rssi_change : ℚ
  max_timestamp_gap_ms : Nat
  deriving Repr, DecidableEq

/-- The default `AnomalyConfig` values. -/
def defaultAnomalyConfig : AnomalyConfig :=
  { max_horizontal_speed := 150, max_vertical_speed := 50, max_acceleration := 30
    max_position_jump_m := 1000, max_altitude_change_rate := 100
    replay_window_ms := 5000, min_duplicate_count := 3
    rssi_distance_tolerance := 3 / 10, min_rssi_change := 20
    max_timestamp_gap_ms := 10000 }

/-- `UAVHistory`: the per-UAV bounded FIFOs (bound `max_history = 100`). -/
structure UAVHistory where
  id : String
  positions : List LocationVector
  rssi_history : List Int
  timestamps : List Nat
  message_hashes : List Nat
  deriving Repr, DecidableEq

/-- A freshly created history entry. -/
def emptyHistory (id : String) : UAVHistory :=
  { id := id, positions := [], rssi_history := [], timestamps := []
    message_hashes := [] }

/-- `UAVHistory::addPosition` followed by `trim`: append to all four
FIFOs, then pop fronts while more than 100 positions remain. -/
def UAVHistory.addPosition (h : UAVHistory) (loc : LocationVector) (rssi : Int)
    (time : Nat) (msg_hash : Nat) : UAVHistory :=
  let p := h.positions ++ [loc]
  let k := p.length - 100
  { h with
    positions := p.drop k
    rssi_history := (h.rssi_history ++ [rssi]).drop k
    timestamps := (h.timestamps ++ [time]).drop k
    message_hashes := (h.message_hashes ++ [msg_hash]).drop k }

/-- Detector state: the per-id history map and the counters. -/
structure ADState where
  history : List (String × UAVHistory)
  anomaly_counts : List (AnomalyType × Nat)
  total_anomalies : Nat
  deriving Repr, DecidableEq

/-- The empty detector state. -/
def emptyADState : ADState :=
  { history := [], anomaly_counts := [], total_anomalies := 0 }

/-- History map lookup (`history_.find`). -/
def lookupHist (l : List (String × UAVHistory)) (id : String) : Option UAVHistory :=
  match l with
  | [] => none
  | (k, v) :: rest => if k = id then some v else lookupHist rest id

/-- In-place history replacement for an existing key. -/
def replaceHist (l : List (String × UAVHistory)) (id : String) (v : UAVHistory) :
    List (String × UAVHistory) :=
  match l with
  | [] => []
  | (k, w) :: rest =>
    if k = id then (k, v) :: rest else (k, w) :: replaceHist rest id v

/-- `history_[uav.id]` together with `hist.id = uav.id`: default-insert
the entry if absent, and (re)assign its id. -/
def ensureHist (st : ADState) (id : String) : ADState :=
  match lookupHist st.history id with
  | none => { st with history := (id, emptyHistory id) :: st.history }
  | some h => { st with history := replaceHist st.history id { h with id := id } }

/-- The duplicate count of `checkReplayAttack`: history entries with the
same hash whose age is inside the replay window. -/
def countDuplicates (h : UAVHistory) (message_hash now window : Nat) : Nat :=
  (h.message_hashes.zip h.timestamps).countP
    (fun q => q.1 == message_hash && decide (now - q.2 < window))

/-- `checkReplayAttack`. -/
def checkReplayAttack (cfg : AnomalyConfig) (hist : Option UAVHistory) (id : String)
    (message_hash now : Nat) : List Anomaly :=
  match hist with
  | none => []
  | some h =>
    let duplicate_count := countDuplicates h message_hash now cfg.replay_window_ms
    if duplicate_count ≥ cfg.min_duplicate_count then
      [{ type := AnomalyType.REPLAY_ATTACK, severity := AnomalySeverity.CRITICAL
         uav_id := id
         description := "Duplicate messages detected (possible replay attack)"
         expected_value := 0, actual_value := duplicate_count
         confidence := min 1 ((duplicate_count : ℚ) / 10), detected_at := now }]
    else []

/-- `checkSpeedAnomalies` (horizontal speed, vertical speed and
acceleration rules). -/
def checkSpeedAnomalies (g : GeoFns) (cfg : AnomalyConfig) (id : String)
    (current previous : LocationVector) (tds : ℚ) (now : Nat) : List Anomaly :=
  if tds ≤ 0 then []
  else
    let distance := g.dist previous.latitude previous.longitude
      current.latitude current.longitude
    let calculated_speed := distance / tds
    let a1 : List Anomaly :=
      if calculated_speed > cfg.max_horizontal_speed then
        [{ type := AnomalyType.SPEED_IMPOSSIBLE
           severity := if calculated_speed > cfg.max_horizontal_speed * 2 then
             AnomalySeverity.CRITICAL else AnomalySeverity.WARNING
           uav_id := id
           description := "Calculated horizontal speed exceeds physical limits"
           expected_value := cfg.max_horizontal_speed, actual_value := calculated_speed
           confidence := min 1 (calculated_speed / (cfg.max_horizontal_speed * 3))
           detected_at := now }]
      else []
    let vertical_speed := |current.altitude_geo - previous.altitude_geo| / tds
    let a2 : List Anomaly :=
      if vertical_speed > cfg.max_vertical_speed then
        [{ type := AnomalyType.ALTITUDE_SPIKE
           severity := if vertical_speed > cfg.max_vertical_speed * 2 then
             AnomalySeverity.CRITICAL else AnomalySeverity.WARNING
           uav_id := id
           description := "Vertical speed exceeds physical limits"
           expected_value := cfg.max_vertical_speed, actual_value := vertical_speed
           confidence := min 1 (vertical_speed / (cfg.max_vertical_speed * 3))
           detected_at := now }]
      else []
    let a3 : List Anomaly :=
      match current.speed_horizontal, previous.speed_horizontal with
      | some cs, some ps =>
        if 0 ≤ cs ∧ 0 ≤ ps then
          let acceleration := |cs - ps| / tds
          if acceleration > cfg.max_acceleration then
            [{ type := AnomalyType.SPEED_IMPOSSIBLE
               severity := AnomalySeverity.WARNING, uav_id := id
               description := "Acceleration exceeds reasonable limits"
               expected_value := cfg.max_acceleration, actual_value := acceleration
               confidence := min 1 (acceleration / (cfg.max_acceleration * 2))
               detected_at := now }]
          else []
        else []
      | _, _ => []
    a1 ++ a2 ++ a3

/-- `checkPositionAnomalies`. -/
def checkPositionAnomalies (g : GeoFns) (cfg : AnomalyConfig) (id : String)
    (current previous : LocationVector) (tds : ℚ) (now : Nat) : List Anomaly :=
  let distance := g.dist previous.latitude previous.longitude
    current.latitude current.longitude
  let max_possible_distance := cfg.max_horizontal_speed * tds
  if distance > cfg.max_position_jump_m ∧ distance > max_possible_distance * (3 / 2) then
    [{ type := AnomalyType.POSITION_JUMP, severity := AnomalySeverity.CRITICAL
       uav_id := id
       description := "Position jumped impossibly far"
       expected_value := max_possible_distance, actual_value := distance
       confidence := min 1 (distance / (max_possible_distance * 3))
       detected_at := now }]
  else []

/-- `checkSignalAnomaly` (path-loss exponent 2.5, reference anchor not
needed by the rule itself). -/
def checkSignalAnomaly (g : GeoFns) (cfg : AnomalyConfig) (id : String)
    (current_rssi : Int) (location : LocationVector) (hist : Option UAVHistory)
    (now : Nat) : List Anomaly :=
  match hist with
  | none => []
  | some h =>
    if h.rssi_history.length < 3 then []
    else
      let avg_rssi := (h.rssi_history.foldl (fun s r => s + (r : ℚ)) 0) /
        (h.rssi_history.length : ℚ)
      let rssi_diff := |(current_rssi : ℚ) - avg_rssi|
      if rssi_diff > cfg.min_rssi_change then
        if ¬ h.positions.isEmpty then
          let prev_pos := h.positions.getLastD LocationVector.init
          let distance := g.dist prev_pos.latitude prev_pos.longitude
            location.latitude location.longitude
          let expected_rssi_change := 10 * (5 / 2) * g.log10 (max 1 distance)
          if rssi_diff > expected_rssi_change * (1 + cfg.rssi_distance_tolerance) then
            [{ type := AnomalyType.SIGNAL_ANOMALY, severity := AnomalySeverity.WARNING
               uav_id := id
               description := "RSSI change inconsistent with position change"
               expected_value := expected_rssi_change, actual_value := rssi_diff
               confidence := min 1 (rssi_diff / 40), detected_at := now }]
          else []
        else []
      else []

/-- One counter bump (`anomaly_counts_[a.type]++; total_anomalies_++`). -/
def bumpCount (l : List (AnomalyType × Nat)) (t : AnomalyType) :
    List (AnomalyType × Nat) :=
  match l with
  | [] => [(t, 1)]
  | (k, n) :: rest => if k = t then (k, n + 1) :: rest else (k, n) :: bumpCount rest t

/-- The counter-update loop at the end of `analyze`. -/
def bumpCounts (st : ADState) (anomalies : List Anomaly) : ADState :=
  anomalies.foldl
    (fun s a =>
      { s with anomaly_counts := bumpCount s.anomaly_counts a.type
               total_anomalies := s.total_anomalies + 1 })
    st

/-- `AnomalyDetector::analyze`: returns the detected anomalies and the
new detector state.  `now` is the instant of the call. -/
def analyze (g : GeoFns) (hashFn : UAVObject → Nat) (cfg : AnomalyConfig)
    (st : ADState) (uav : UAVObject) (rssi : Int) (now : Nat) :
    List Anomaly × ADState :=
  if uav.id = "" then ([], st)
  else
    let msg_hash := hashFn uav
    let st1 := ensureHist st uav.id
    let hist := lookupHist st1.history uav.id
    let replay := checkReplayAttack cfg hist uav.id msg_hash now
    let others : List Anomaly :=
      match hist with
      | none => []
      | some h =>
        if ¬ h.positions.isEmpty ∧ uav.location.valid then
          let prev := h.positions.getLastD LocationVector.init
          let prev_time := h.timestamps.getLastD 0
          let tds : ℚ := ((now : ℚ) - (prev_time : ℚ)) / 1000
          (if 0 < tds ∧ tds < (cfg.max_timestamp_gap_ms : ℚ) / 1000 then
            checkSpeedAnomalies g cfg uav.id uav.location prev tds now ++
              checkPositionAnomalies g cfg uav.id uav.location prev tds now
          else []) ++
            checkSignalAnomaly g cfg uav.id rssi uav.location (some h) now
        else []
    let anomalies := replay ++ others
    let st2 :=
      if uav.location.valid then
        match lookupHist st1.history uav.id with
        | none => st1
        | some h =>
          let h2 := h.addPosition uav.location rssi now msg_hash
          { st1 with history := replaceHist st1.history uav.id h2 }
      else st1
    (anomalies, bumpCounts st2 anomalies)

/-- Feed one `UAVObject` repeatedly to `analyze` at the given call
instants, collecting the per-call anomaly lists. -/
def runAnalyze (g : GeoFns) (hashFn : UAVObject → Nat) (cfg : AnomalyConfig)
    (uav : UAVObject) (rssi : Int) : List Nat → ADState → List (List Anomaly) × ADState
  | [], st => ([], st)
  | t :: ts, st =>
    let step := analyze g hashFn cfg st uav rssi t
    let rest := runAnalyze g hashFn cfg uav rssi ts step.2
    (step.1 :: rest.1, rest.2)

/-! ## Trajectory analyzer (src/analysis/trajectory_analyzer.cpp)

Only the prediction entry point is under scrutiny; the per-id state it
reads is the pair of point FIFOs of a `Trajectory`. -/

/-- `TrajectoryPoint` (timestamps in milliseconds). -/
structure TrajectoryPoint where
  latitude : ℚ
  longitude : ℚ
  altitude : ℚ
  speed : ℚ
  heading : ℚ
  timestamp : Nat
  deriving Repr, DecidableEq, Inhabited

/-- Default-constructed `TrajectoryPoint` (the model fixes the
construction instant at 0). -/
def TrajectoryPoint.init : TrajectoryPoint :=
  { latitude := 0, longitude := 0, altitude := 0, speed := 0, heading := 0
    timestamp := 0 }

/-- `Trajectory`: the raw and smoothed point FIFOs. -/
structure Trajectory where
  points : List TrajectoryPoint
  smoothed_points : List TrajectoryPoint
  deriving Repr, DecidableEq, Inhabited

/-- `PredictedPosition`. -/
structure PredictedPosition where
  latitude : ℚ
  longitude : ℚ
  altitude : ℚ
  confidence : ℚ
  error_radius_m : ℚ
  prediction_time : Nat
  deriving Repr, DecidableEq, Inhabited

/-- Trajectory map lookup (`trajectories_.find`). -/
def lookupTraj (l : List (String × Trajectory)) (id : String) : Option Trajectory :=
  match l with
  | [] => none
  | (k, v) :: rest => if k = id then some v else lookupTraj rest id

/-- `TrajectoryAnalyzer::predictPosition`: linear extrapolation from the
last two (smoothed, if available) points, with decaying confidence and a
growing error radius. -/
def predictPosition (g : GeoFns) (trajectories : List (String × Trajectory))
    (uav_id : String) (time_ahead_ms : Nat) (now : Nat) : PredictedPosition :=
  let pred0 : PredictedPosition :=
    { latitude := 0, longitude := 0, altitude := 0, confidence := 0
      error_radius_m := 0, prediction_time := now + time_ahead_ms }
  match lookupTraj trajectories uav_id with
  | none => pred0
  | some traj =>
    if traj.points.length < 2 then pred0
    else
      let pts := if traj.smoothed_points.isEmpty then traj.points
        else traj.smoothed_points
      if pts.length < 2 then pred0
      else
        let p1 := pts.getD (pts.length - 2) TrajectoryPoint.init
        let p2 := pts.getLastD TrajectoryPoint.init
        let time_diff : ℚ := ((p2.timestamp : ℚ) - (p1.timestamp : ℚ)) / 1000
        if time_diff ≤ 0 then
          { pred0 with latitude := p2.latitude, longitude := p2.longitude
                       altitude := p2.altitude, confidence := 1 / 2 }
        else
          let bearing := g.bearing p1.latitude p1.longitude p2.latitude p2.longitude
          let distance := g.dist p1.latitude p1.longitude p2.latitude p2.longitude
          let speed_mps := distance / time_diff
          let alt_rate := (p2.altitude - p1.altitude) / time_diff
          let prediction_time_s : ℚ := (time_ahead_ms : ℚ) / 1000
          let predicted_distance := speed_mps * prediction_time_s
          { latitude := g.projectLat p2.latitude p2.longitude bearing predicted_distance
            longitude := g.projectLon p2.latitude p2.longitude bearing predicted_distance
            altitude := p2.altitude + alt_rate * prediction_time_s
            confidence := max 0 (1 - prediction_time_s / 30)
            error_radius_m := speed_mps * prediction_time_s * (1 / 10) +
              prediction_time_s * 2
            prediction_time := now + time_ahead_ms }

end analysis

namespace utils

/-! ## Bit reader (src/utils/bit_reader.cpp)

The reader's `size_t` arithmetic is modelled exactly: every cursor
computation is reduced modulo `2 ^ 64` before the bounds comparison,
exactly as the unsigned C++ addition behaves. -/

/-- `2 ^ 64`, the `size_t` modulus. -/
def W64 : Nat := 18446744073709551616

/-- `BitReader` cursor state over a buffer of `length` bytes. -/
structure BitReader where
  length : Nat
  pos : Nat
  bit_pos : Nat
  deriving Repr, DecidableEq, Inhabited

/-- `BitReader::readU8`. -/
def BitReader.readU8 (data : List Nat) (r : BitReader) : Except String (Nat × BitReader) :=
  if r.pos ≥ r.length then Except.error "BitReader: buffer underflow"
  else Except.ok (data.getD r.pos 0, { r with pos := (r.pos + 1) % W64 })

/-- `BitReader::readU16`. -/
def BitReader.readU16 (data : List Nat) (r : BitReader) : Except String (Nat × BitReader) :=
  if (r.pos + 2) % W64 > r.length then Except.error "BitReader: buffer underflow"
  else Except.ok (readLE16 data r.pos, { r with pos := (r.pos + 2) % W64 })

/-- `BitReader::readU32`. -/
def BitReader.readU32 (data : List Nat) (r : BitReader) : Except String (Nat × BitReader) :=
  if (r.pos + 4) % W64 > r.length then Except.error "BitReader: buffer underflow"
  else Except.ok (readLE32 data r.pos, { r with pos := (r.pos + 4) % W64 })

/-- `BitReader::readBytes`. -/
def BitReader.readBytes (data : List Nat) (r : BitReader) (count : Nat) :
    Except String (List Nat × BitReader) :=
  if (r.pos + count) % W64 > r.length then Except.error "BitReader: buffer underflow"
  else Except.ok ((data.drop r.pos).take count, { r with pos := (r.pos + count) % W64 })

/-- `BitReader::skip`. -/
def BitReader.skip (r : BitReader) (count : Nat) : Except String BitReader :=
  if (r.pos + count) % W64 > r.length then Except.error "BitReader: buffer underflow"
  else Except.ok { r with pos := (r.pos + count) % W64 }

/-- `BitReader::remaining`. -/
def BitReader.remaining (r : BitReader) : Nat :=
  r.length - r.pos

end utils

/-! ## Concrete inputs -/

/-- Byte values of an ASCII string. -/
def strBytes (s : String) : List Nat :=
  s.toList.map Char.toNat

/-- The 25-byte Basic ID seed message: header `02` (type 0, version 2),
type byte `12` (serial-number id, helicopter/multirotor), the 17-byte id
`DJI1234567890ABCD` and six NUL padding bytes. -/
def basicIDSeedMessage : List Nat :=
  [0x02, 0x12] ++ strBytes "DJI1234567890ABCD" ++ [0, 0, 0, 0, 0, 0]

/-- The seed frame exactly as the specification writes it: envelope
`1E 16 FA FF 00` followed by the Basic ID message.  Its AD length byte
`0x1E = 30` declares 30 bytes after itself while only 29 exist, so the
AD-structure walk refuses it. -/
def seedFrame1E : List Nat :=
  [0x1E, 0x16, 0xFA, 0xFF, 0x00] ++ basicIDSeedMessage

/-- The same frame with the consistent AD length byte `0x1D = 29`
(AD type + UUID + message counter + 25-byte message), the form the
repository's own ASTM tests construct. -/
def seedFrame1D : List Nat :=
  [0x1D, 0x16, 0xFA, 0xFF, 0x00] ++ basicIDSeedMessage

/-- The truncated seed frame exactly as the specification writes it. -/
def truncatedFrame1E : List Nat :=
  [0x1E, 0x16, 0xFA, 0xFF, 0x00, 0x02]

/-- The truncated frame with a consistent AD length byte (`0x05` covers
the AD type, the UUID, the message counter and the lone body byte). -/
def truncatedFrame05 : List Nat :=
  [0x05, 0x16, 0xFA, 0xFF, 0x00, 0x02]

/-- A Message Pack exactly as the repository test
`DecodeMessagePack_TwoMessages` builds it: byte 0 `F2` (type 0xF), byte
1 `((MESSAGE_SIZE - 1) << 4) | 2` truncated to a byte, i.e. `0x82`, then
two 25-byte sub-messages. -/
def packSeedMessage : List Nat :=
  [0xF2, 0x82] ++ basicIDSeedMessage ++ basicIDSeedMessage

/-- A 25-byte Location message whose encoded latitude is the maximal
`int32` value `0x7FFFFFFF` (bytes 5..8, little-endian). -/
def locationBigLatMessage : List Nat :=
  [0x12, 0x20, 45, 40, 4] ++ [0xFF, 0xFF, 0xFF, 0x7F] ++ List.replicate 16 0

open analysis

/-- A trajectory whose last two points carry identical timestamps, as
produced by two position reports within the same clock millisecond. -/
def equalTimeTraj : Trajectory :=
  { points := [{ TrajectoryPoint.init with timestamp := 1000 },
               { TrajectoryPoint.init with latitude := 1, timestamp := 1000 }]
    smoothed_points := [] }

/-- A trajectory with two points one second apart. -/
def secondApartTraj : Trajectory :=
  { points := [{ TrajectoryPoint.init with timestamp := 0 },
               { TrajectoryPoint.init with latitude := 1, timestamp := 1000 }]
    smoothed_points := [] }

/-- A `UAVObject` with a non-empty id and a valid location. -/
def validLocUAV : UAVObject :=
  { UAVObject.init with
    id := "R"
    location := { LocationVector.init with valid := true } }

/-- A `UAVObject` with a non-empty id whose location is not valid (as a
decoded Basic-ID-only record is). -/
def invalidLocUAV : UAVObject :=
  { UAVObject.init with id := "X" }

/-- The shape of the detector history built by feeding one fixed update
repeatedly: after the calls at the instants `processed`, all four FIFOs
hold the last `min |processed| 100` entries, the hashes are all equal to
the message hash, and the timestamps are the tail of `processed`. -/
def histSpec (loc : LocationVector) (rssi : Int) (h : Nat) (processed : List Nat)
    (H : UAVHistory) : Prop :=
  H.positions = List.replicate (min processed.length 100) loc ∧
  H.rssi_history = List.replicate (min processed.length 100) rssi ∧
  H.timestamps = processed.drop (processed.length - 100) ∧
  H.message_hashes = List.replicate (min processed.length 100) h

/-! ## Helper lemmas -/

/-- A byte read from a buffer of bytes is a byte (out-of-range positions
give the default 0). -/
theorem getD_lt_256 {data : List Nat} (h : ∀ b ∈ data, b < 256) (i : Nat) :
    data.getD i 0 < 256 := by
  by_cases hi : i < data.length
  · rw [List.getD_eq_getElem data 0 hi]
    exact h _ (List.getElem_mem hi)
  · rw [List.getD_eq_default data 0 (Nat.le_of_not_lt hi)]
    norm_num

/-- `toInt32` lands in the `int32_t` range. -/
theorem toInt32_range (n : Nat) :
    -2147483648 ≤ toInt32 n ∧ toInt32 n ≤ 2147483647 := by
  have h : n % 4294967296 < 4294967296 := Nat.mod_lt _ (by norm_num)
  by_cases hm : n % 4294967296 < 2147483648 <;> simp [toInt32, hm] <;> omega

/-- Replacing the value stored under a present key makes lookups of that
key return the new value. -/
theorem lookupUAV_replace_self {l : List (String × UAVObject)} {id : String}
    {old : UAVObject} (h : lookupUAV l id = some old) (v : UAVObject) :
    lookupUAV (replaceUAV l id v) id = some v := by
  induction l with
  | nil => simp [lookupUAV] at h
  | cons p rest ih =>
    obtain ⟨k, w⟩ := p
    by_cases hk : k = id
    · simp [lookupUAV, replaceUAV, hk]
    · simp [lookupUAV, replaceUAV, hk] at h ⊢
      exact ih h

/-- Replacing the value stored under one key leaves lookups of every
other key unchanged. -/
theorem lookupUAV_replace_other {l : List (String × UAVObject)} {id id2 : String}
    (h : id2 ≠ id) (v : UAVObject) :
    lookupUAV (replaceUAV l id v) id2 = lookupUAV l id2 := by
  induction l with
  | nil => rfl
  | cons p rest ih =>
    obtain ⟨k, w⟩ := p
    by_cases hk : k = id
    · subst hk
      have hne : ¬ (k = id2) := fun he => h (he.symm)
      simp [lookupUAV, replaceUAV, hne]
    · by_cases hk2 : k = id2
      · simp [lookupUAV, replaceUAV, hk, hk2, h]
      · simp [lookupUAV, replaceUAV, hk, hk2, ih]

/-- Replacing a present history entry makes lookups of that key return
the new value. -/
theorem lookupHist_replace_self {l : List (String × UAVHistory)} {id : String}
    {old : UAVHistory} (h : lookupHist l id = some old) (v : UAVHistory) :
    lookupHist (replaceHist l id v) id = some v := by
  induction l with
  | nil => simp [lookupHist] at h
  | cons p rest ih =>
    obtain ⟨k, w⟩ := p
    by_cases hk : k = id
    · simp [lookupHist, replaceHist, hk]
    · simp [lookupHist, replaceHist, hk] at h ⊢
      exact ih h

/-- `ensureHist` over a present entry re-tags the stored history with
the looked-up id. -/
theorem lookupHist_ensure_some {st : ADState} {id : String} {H : UAVHistory}
    (h : lookupHist st.history id = some H) :
    lookupHist (ensureHist st id).history id = some { H with id := id } := by
  unfold ensureHist
  rw [h]
  exact lookupHist_replace_self h _

/-- `ensureHist` over an absent entry default-inserts it. -/
theorem lookupHist_ensure_none {st : ADState} {id : String}
    (h : lookupHist st.history id = none) :
    lookupHist (ensureHist st id).history id = some (emptyHistory id) := by
  unfold ensureHist
  rw [h]
  simp [lookupHist]

/-- The counter bumps at the end of `analyze` leave the history map
untouched. -/
theorem bumpCounts_history (anomalies : List Anomaly) :
    ∀ st : ADState, (bumpCounts st anomalies).history = st.history := by
  induction anomalies with
  | nil => intro st; rfl
  | cons a rest ih =>
    intro st
    show (bumpCounts _ rest).history = _
    rw [ih]

/-- Every anomaly the speed rules emit has a non-replay type. -/
theorem checkSpeedAnomalies_no_replay (g : GeoFns) (cfg : AnomalyConfig) (id : String)
    (current previous : LocationVector) (tds : ℚ) (now : Nat) :
    ∀ a ∈ checkSpeedAnomalies g cfg id current previous tds now,
      a.type ≠ AnomalyType.REPLAY_ATTACK := by
  intro a ha
  unfold checkSpeedAnomalies at ha
  split at ha
  · exact absurd ha (List.not_mem_nil a)
  · simp only [] at ha
    rcases List.mem_append.mp ha with h12 | h3
    · rcases List.mem_append.mp h12 with h1 | h2
      · split at h1
        · rw [List.mem_singleton] at h1
          subst h1
          simp
        · exact absurd h1 (List.not_mem_nil a)
      · split at h2
        · rw [List.mem_singleton] at h2
          subst h2
          simp
        · exact absurd h2 (List.not_mem_nil a)
    · split at h3
      · split at h3
        · split at h3
          · rw [List.mem_singleton] at h3
            subst h3
            simp
          · exact absurd h3 (List.not_mem_nil a)
        · exact absurd h3 (List.not_mem_nil a)
      · exact absurd h3 (List.not_mem_nil a)

/-- Every anomaly the position rule emits has a non-replay type. -/
theorem checkPositionAnomalies_no_replay (g : GeoFns) (cfg : AnomalyConfig) (id : String)
    (current previous : LocationVector) (tds : ℚ) (now : Nat) :
    ∀ a ∈ checkPositionAnomalies g cfg id current previous tds now,
      a.type ≠ AnomalyType.REPLAY_ATTACK := by
  intro a ha
  unfold checkPositionAnomalies at ha
  simp only [] at ha
  split at ha
  · rw [List.mem_singleton] at ha
    subst ha
    simp
  · exact absurd ha (List.not_mem_nil a)

/-- Every anomaly the signal rule emits has a non-replay type. -/
theorem checkSignalAnomaly_no_replay (g : GeoFns) (cfg : AnomalyConfig) (id : String)
    (current_rssi : Int) (location : LocationVector) (hist : Option UAVHistory)
    (now : Nat) :
    ∀ a ∈ checkSignalAnomaly g cfg id current_rssi location hist now,
      a.type ≠ AnomalyType.REPLAY_ATTACK := by
  intro a ha
  unfold checkSignalAnomaly at ha
  rcases hist with _ | H
  · exact absurd ha (List.not_mem_nil a)
  · simp only [] at ha
    split at ha
    · exact absurd ha (List.not_mem_nil a)
    · split at ha
      · split at ha
        · split at ha
          · rw [List.mem_singleton] at ha
            subst ha
            simp
          · exact absurd ha (List.not_mem_nil a)
        · exact absurd ha (List.not_mem_nil a)
      · exact absurd ha (List.not_mem_nil a)

/-- The replay rule fires exactly the critical replay anomaly when the
duplicate count reaches the configured minimum. -/
theorem checkReplayAttack_fires (cfg : AnomalyConfig) (H : UAVHistory) (id : String)
    (h now : Nat)
    (hcnt : cfg.min_duplicate_count ≤ countDuplicates H h now cfg.replay_window_ms) :
    checkReplayAttack cfg (some H) id h now =
      [{ type := AnomalyType.REPLAY_ATTACK, severity := AnomalySeverity.CRITICAL
         uav_id := id
         description := "Duplicate messages detected (possible replay attack)"
         expected_value := 0
         actual_value := countDuplicates H h now cfg.replay_window_ms
         confidence := min 1 ((countDuplicates H h now cfg.replay_window_ms : ℚ) / 10)
         detected_at := now }] := by
  unfold checkReplayAttack
  simp only [ge_iff_le, if_pos hcnt]

/-- The replay rule is silent below the configured minimum. -/
theorem checkReplayAttack_quiet (cfg : AnomalyConfig) (H : UAVHistory) (id : String)
    (h now : Nat)
    (hcnt : countDuplicates H h now cfg.replay_window_ms < cfg.min_duplicate_count) :
    checkReplayAttack cfg (some H) id h now = [] := by
  unfold checkReplayAttack
  simp only [ge_iff_le]
  rw [if_neg (by omega)]

/-- The anomaly list returned by `analyze` for a non-empty id, spelled
out: the replay check over the ensured history entry, then the
kinematic and signal checks. -/
theorem analyze_fst_eq (g : GeoFns) (hashFn : UAVObject → Nat) (cfg : AnomalyConfig)
    (st : ADState) (uav : UAVObject) (rssi : Int) (now : Nat) (hid : ¬ uav.id = "") :
    (analyze g hashFn cfg st uav rssi now).1 =
      checkReplayAttack cfg (lookupHist (ensureHist st uav.id).history uav.id) uav.id
          (hashFn uav) now ++
        (match lookupHist (ensureHist st uav.id).history uav.id with
         | none => []
         | some h =>
           if ¬ h.positions.isEmpty ∧ uav.location.valid then
             (if 0 < ((now : ℚ) - (h.timestamps.getLastD 0 : ℚ)) / 1000 ∧
                 ((now : ℚ) - (h.timestamps.getLastD 0 : ℚ)) / 1000 <
                   (cfg.max_timestamp_gap_ms : ℚ) / 1000 then
               checkSpeedAnomalies g cfg uav.id uav.location
                   (h.positions.getLastD LocationVector.init)
                   (((now : ℚ) - (h.timestamps.getLastD 0 : ℚ)) / 1000) now ++
                 checkPositionAnomalies g cfg uav.id uav.location
                   (h.positions.getLastD LocationVector.init)
                   (((now : ℚ) - (h.timestamps.getLastD 0 : ℚ)) / 1000) now
             else []) ++
               checkSignalAnomaly g cfg uav.id rssi uav.location (some h) now
           else []) := by
  unfold analyze
  rw [if_neg hid]

/-- When the prior history entry has enough in-window duplicates of the
current hash, `analyze` emits a critical replay anomaly whose confidence
is `min 1 (count / 10)`. -/
theorem analyze_replay_fires (g : GeoFns) (hashFn : UAVObject → Nat)
    (cfg : AnomalyConfig) (st : ADState) (uav : UAVObject) (rssi : Int) (now : Nat)
    (H : UAVHistory) (hid : ¬ uav.id = "")
    (hH : lookupHist st.history uav.id = some H)
    (hcnt : cfg.min_duplicate_count ≤
      countDuplicates H (hashFn uav) now cfg.replay_window_ms) :
    ∃ a ∈ (analyze g hashFn cfg st uav rssi now).1,
      a.type = AnomalyType.REPLAY_ATTACK ∧ a.severity = AnomalySeverity.CRITICAL ∧
      a.confidence = min 1 (a.actual_value / 10) := by
  rw [analyze_fst_eq g hashFn cfg st uav rssi now hid]
  rw [lookupHist_ensure_some hH]
  have hc2 : cfg.min_duplicate_count ≤
      countDuplicates { H with id := uav.id } (hashFn uav) now cfg.replay_window_ms := hcnt
  rw [checkReplayAttack_fires cfg { H with id := uav.id } uav.id (hashFn uav) now hc2]
  exact ⟨_, List.mem_append_left _ (List.mem_singleton_self _), rfl, rfl, rfl⟩

/-- When the ensured history entry lacks enough in-window duplicates,
no anomaly `analyze` returns is a replay anomaly. -/
theorem analyze_no_replay (g : GeoFns) (hashFn : UAVObject → Nat) (cfg : AnomalyConfig)
    (st : ADState) (uav : UAVObject) (rssi : Int) (now : Nat)
    (hq : ∀ H, lookupHist (ensureHist st uav.id).history uav.id = some H →
      countDuplicates H (hashFn uav) now cfg.replay_window_ms < cfg.min_duplicate_count) :
    ∀ a ∈ (analyze g hashFn cfg st uav rssi now).1,
      a.type ≠ AnomalyType.REPLAY_ATTACK := by
  intro a ha
  by_cases hid : uav.id = ""
  · unfold analyze at ha
    rw [if_pos hid] at ha
    exact absurd ha (List.not_mem_nil a)
  · rw [analyze_fst_eq g hashFn cfg st uav rssi now hid] at ha
    rcases he : lookupHist (ensureHist st uav.id).history uav.id with _ | H
    · rw [he] at ha
      simp [checkReplayAttack] at ha
    · rw [he, checkReplayAttack_quiet cfg H uav.id (hashFn uav) now (hq H he)] at ha
      rw [List.nil_append] at ha
      simp only [] at ha
      split at ha
      · rcases List.mem_append.mp ha with h1 | h2
        · split at h1
          · rcases List.mem_append.mp h1 with hs | hp
            · exact checkSpeedAnomalies_no_replay g cfg uav.id uav.location
                (H.positions.getLastD LocationVector.init) _ now a hs
            · exact checkPositionAnomalies_no_replay g cfg uav.id uav.location
                (H.positions.getLastD LocationVector.init) _ now a hp
          · exact absurd h1 (List.not_mem_nil a)
        · exact checkSignalAnomaly_no_replay g cfg uav.id rssi uav.location
            (some H) now a h2
      · exact absurd ha (List.not_mem_nil a)

/-- State effect of `analyze` on the analysed id: existing entry, valid
location — the re-tagged entry gains one record. -/
theorem analyze_entry_some_valid (g : GeoFns) (hashFn : UAVObject → Nat)
    (cfg : AnomalyConfig) (st : ADState) (uav : UAVObject) (rssi : Int) (now : Nat)
    (H : UAVHistory) (hid : ¬ uav.id = "") (hval : uav.location.valid = true)
    (hH : lookupHist st.history uav.id = some H) :
    lookupHist (analyze g hashFn cfg st uav rssi now).2.history uav.id =
      some (UAVHistory.addPosition { H with id := uav.id } uav.location rssi now
        (hashFn uav)) := by
  unfold analyze
  rw [if_neg hid]
  simp only []
  rw [bumpCounts_history]
  rw [lookupHist_ensure_some hH]
  simp only [hval, if_true]
  exact lookupHist_replace_self (lookupHist_ensure_some hH) _

/-- State effect of `analyze`: fresh entry, valid location. -/
theorem analyze_entry_none_valid (g : GeoFns) (hashFn : UAVObject → Nat)
    (cfg : AnomalyConfig) (st : ADState) (uav : UAVObject) (rssi : Int) (now : Nat)
    (hid : ¬ uav.id = "") (hval : uav.location.valid = true)
    (hH : lookupHist st.history uav.id = none) :
    lookupHist (analyze g hashFn cfg st uav rssi now).2.history uav.id =
      some (UAVHistory.addPosition (emptyHistory uav.id) uav.location rssi now
        (hashFn uav)) := by
  unfold analyze
  rw [if_neg hid]
  simp only []
  rw [bumpCounts_history]
  rw [lookupHist_ensure_none hH]
  simp only [hval, if_true]
  exact lookupHist_replace_self (lookupHist_ensure_none hH) _

/-- State effect of `analyze`: existing entry, invalid location — only
the id tag is refreshed. -/
theorem analyze_entry_some_invalid (g : GeoFns) (hashFn : UAVObject → Nat)
    (cfg : AnomalyConfig) (st : ADState) (uav : UAVObject) (rssi : Int) (now : Nat)
    (H : UAVHistory) (hid : ¬ uav.id = "") (hval : ¬ uav.location.valid = true)
    (hH : lookupHist st.history uav.id = some H) :
    lookupHist (analyze g hashFn cfg st uav rssi now).2.history uav.id =
      some { H with id := uav.id } := by
  unfold analyze
  rw [if_neg hid]
  simp only []
  rw [bumpCounts_history]
  simp only [hval, if_false]
  exact lookupHist_ensure_some hH

/-- State effect of `analyze`: fresh entry, invalid location. -/
theorem analyze_entry_none_invalid (g : GeoFns) (hashFn : UAVObject → Nat)
    (cfg : AnomalyConfig) (st : ADState) (uav : UAVObject) (rssi : Int) (now : Nat)
    (hid : ¬ uav.id = "") (hval : ¬ uav.location.valid = true)
    (hH : lookupHist st.history uav.id = none) :
    lookupHist (analyze g hashFn cfg st uav rssi now).2.history uav.id =
      some (emptyHistory uav.id) := by
  unfold analyze
  rw [if_neg hid]
  simp only []
  rw [bumpCounts_history]
  simp only [hval, if_false]
  exact lookupHist_ensure_none hH

/-- Every timestamp stored under the analysed id after a call to
`analyze` either was already stored or is the instant of the call. -/
theorem analyze_entry_timestamps (g : GeoFns) (hashFn : UAVObject → Nat)
    (cfg : AnomalyConfig) (st : ADState) (uav : UAVObject) (rssi : Int) (now : Nat) :
    ∀ H2, lookupHist (analyze g hashFn cfg st uav rssi now).2.history uav.id = some H2 →
      ∀ tm ∈ H2.timestamps,
        (∃ H, lookupHist st.history uav.id = some H ∧ tm ∈ H.timestamps) ∨ tm = now := by
  intro H2 h2 tm htm
  by_cases hid : uav.id = ""
  · unfold analyze at h2
    rw [if_pos hid] at h2
    exact Or.inl ⟨H2, h2, htm⟩
  · by_cases hval : uav.location.valid = true
    · rcases hH : lookupHist st.history uav.id with _ | H
      · rw [analyze_entry_none_valid g hashFn cfg st uav rssi now hid hval hH] at h2
        injection h2 with h2
        subst h2
        simp [UAVHistory.addPosition, emptyHistory] at htm
        exact Or.inr htm
      · rw [analyze_entry_some_valid g hashFn cfg st uav rssi now H hid hval hH] at h2
        injection h2 with h2
        subst h2
        simp only [UAVHistory.addPosition] at htm
        have hsub := List.Sublist.mem htm (List.drop_sublist _ _)
        rcases List.mem_append.mp hsub with hold | hnew
        · exact Or.inl ⟨H, rfl, hold⟩
        · exact Or.inr (List.mem_singleton.mp hnew)
    · rcases hH : lookupHist st.history uav.id with _ | H
      · rw [analyze_entry_none_invalid g hashFn cfg st uav rssi now hid hval hH] at h2
        injection h2 with h2
        subst h2
        simp [emptyHistory] at htm
      · rw [analyze_entry_some_invalid g hashFn cfg st uav rssi now H hid hval hH] at h2
        injection h2 with h2
        subst h2
        exact Or.inl ⟨H, rfl, htm⟩

/-- `addPosition` preserves `histSpec`, advancing the processed call
list by one instant. -/
theorem histSpec_addPosition (loc : LocationVector) (rssi : Int) (h : Nat)
    (processed : List Nat) (H : UAVHistory) (t : Nat)
    (hs : histSpec loc rssi h processed H) :
    histSpec loc rssi h (processed ++ [t]) (H.addPosition loc rssi t h) := by
  obtain ⟨hp, hr, ht, hm⟩ := hs
  have hlenp : H.positions.length = min processed.length 100 := by
    rw [hp, List.length_replicate]
  have hlent : H.timestamps.length = min processed.length 100 := by
    rw [ht, List.length_drop]
    omega
  have hkval : (H.positions ++ [loc]).length - 100 =
      min processed.length 100 + 1 - 100 := by
    rw [List.length_append, List.length_singleton, hlenp]
  have hnlen : (processed ++ [t]).length = processed.length + 1 := by
    rw [List.length_append, List.length_singleton]
  refine ⟨?_, ?_, ?_, ?_⟩
  · show (H.positions ++ [loc]).drop ((H.positions ++ [loc]).length - 100) =
      List.replicate (min (processed ++ [t]).length 100) loc
    rw [hkval, hp, ← List.replicate_succ', List.drop_replicate, hnlen]
    congr 1
    omega
  · show (H.rssi_history ++ [rssi]).drop ((H.positions ++ [loc]).length - 100) =
      List.replicate (min (processed ++ [t]).length 100) rssi
    rw [hkval, hr, ← List.replicate_succ', List.drop_replicate, hnlen]
    congr 1
    omega
  · show (H.timestamps ++ [t]).drop ((H.positions ++ [loc]).length - 100) =
      (processed ++ [t]).drop ((processed ++ [t]).length - 100)
    rw [hkval, ht]
    have hk1 : min processed.length 100 + 1 - 100 ≤
        (processed.drop (processed.length - 100)).length := by
      rw [List.length_drop]
      omega
    rw [List.drop_append_of_le_length hk1, List.drop_drop]
    have hk2 : (processed ++ [t]).length - 100 ≤ processed.length := by
      rw [hnlen]
      omega
    rw [List.drop_append_of_le_length hk2]
    have harg : processed.length - 100 + (min processed.length 100 + 1 - 100) =
        (processed ++ [t]).length - 100 := by
      rw [hnlen]
      omega
    rw [harg]
  · show (H.message_hashes ++ [h]).drop ((H.positions ++ [loc]).length - 100) =
      List.replicate (min (processed ++ [t]).length 100) h
    rw [hkval, hm, ← List.replicate_succ', List.drop_replicate, hnlen]
    congr 1
    omega

/-- Unfolding equation of `runAnalyze` for one call. -/
theorem runAnalyze_cons (g : GeoFns) (hashFn : UAVObject → Nat) (cfg : AnomalyConfig)
    (uav : UAVObject) (rssi : Int) (t : Nat) (ts : List Nat) (st : ADState) :
    runAnalyze g hashFn cfg uav rssi (t :: ts) st =
      ((analyze g hashFn cfg st uav rssi t).1 ::
          (runAnalyze g hashFn cfg uav rssi ts (analyze g hashFn cfg st uav rssi t).2).1,
        (runAnalyze g hashFn cfg uav rssi ts (analyze g hashFn cfg st uav rssi t).2).2) :=
  rfl

/-- `runAnalyze` over an appended call list splits into two runs. -/
theorem runAnalyze_append (g : GeoFns) (hashFn : UAVObject → Nat) (cfg : AnomalyConfig)
    (uav : UAVObject) (rssi : Int) :
    ∀ (l1 l2 : List Nat) (st : ADState),
      runAnalyze g hashFn cfg uav rssi (l1 ++ l2) st =
        ((runAnalyze g hashFn cfg uav rssi l1 st).1 ++
            (runAnalyze g hashFn cfg uav rssi l2
              (runAnalyze g hashFn cfg uav rssi l1 st).2).1,
          (runAnalyze g hashFn cfg uav rssi l2
            (runAnalyze g hashFn cfg uav rssi l1 st).2).2) := by
  intro l1
  induction l1 with
  | nil => intro l2 st; simp [runAnalyze]
  | cons t ts ih =>
    intro l2 st
    simp [runAnalyze_cons, ih]

/-- Running `analyze` repeatedly over one valid-location update keeps
the analysed id's history in the `histSpec` shape. -/
theorem runAnalyze_entry (g : GeoFns) (hashFn : UAVObject → Nat) (cfg : AnomalyConfig)
    (uav : UAVObject) (rssi : Int) (hid : ¬ uav.id = "")
    (hval : uav.location.valid = true) :
    ∀ (ts processed : List Nat) (st : ADState) (H : UAVHistory),
      lookupHist st.history uav.id = some H →
      histSpec uav.location rssi (hashFn uav) processed H →
      ∃ H2, lookupHist (runAnalyze g hashFn cfg uav rssi ts st).2.history uav.id =
          some H2 ∧
        histSpec uav.location rssi (hashFn uav) (processed ++ ts) H2 := by
  intro ts
  induction ts with
  | nil =>
    intro processed st H hH hs
    exact ⟨H, hH, by simpa using hs⟩
  | cons t rest ih =>
    intro processed st H hH hs
    have hstep := analyze_entry_some_valid g hashFn cfg st uav rssi t H hid hval hH
    have hs2 : histSpec uav.location rssi (hashFn uav) (processed ++ [t])
        (UAVHistory.addPosition { H with id := uav.id } uav.location rssi t
          (hashFn uav)) :=
      histSpec_addPosition uav.location rssi (hashFn uav) processed
        { H with id := uav.id } t hs
    obtain ⟨H2, h2, hs3⟩ := ih (processed ++ [t]) _ _ hstep hs2
    refine ⟨H2, ?_, ?_⟩
    · rw [runAnalyze_cons]
      exact h2
    · simpa [List.append_assoc] using hs3

/-- When every stored hash matches and every stored age is inside the
window, the duplicate count is the full history length. -/
theorem countDuplicates_full (H : UAVHistory) (h now window : Nat)
    (hhash : ∀ x ∈ H.message_hashes, x = h)
    (hlen : H.message_hashes.length = H.timestamps.length)
    (hage : ∀ y ∈ H.timestamps, now - y < window) :
    countDuplicates H h now window = H.message_hashes.length := by
  unfold countDuplicates
  have hall : ∀ q ∈ H.message_hashes.zip H.timestamps,
      (fun q : Nat × Nat => q.1 == h && decide (now - q.2 < window)) q = true := by
    intro q hq
    obtain ⟨hq1, hq2⟩ := List.of_mem_zip hq
    simp [hhash q.1 hq1, hage q.2 hq2]
  rw [List.countP_eq_length.mpr hall, List.length_zip, hlen, min_self]

/-- When every stored age is outside the window, the duplicate count is
zero. -/
theorem countDuplicates_zero (H : UAVHistory) (h now window : Nat)
    (hage : ∀ y ∈ H.timestamps, ¬ (now - y < window)) :
    countDuplicates H h now window = 0 := by
  unfold countDuplicates
  rw [List.countP_eq_zero.mpr]
  intro q hq
  obtain ⟨hq1, hq2⟩ := List.of_mem_zip hq
  simp [hage q.2 hq2]

/-- Calls spaced pairwise further apart than the replay window never
produce a replay anomaly, whatever state the run starts from, provided
every already-stored timestamp also precedes each call by more than the
window. -/
theorem runAnalyze_no_replay_general (g : GeoFns) (hashFn : UAVObject → Nat)
    (uav : UAVObject) (rssi : Int) :
    ∀ (ts : List Nat) (st : ADState),
      ts.Pairwise (fun a b => a + defaultAnomalyConfig.replay_window_ms < b) →
      (∀ H, lookupHist st.history uav.id = some H →
        ∀ tm ∈ H.timestamps, ∀ u ∈ ts,
          tm + defaultAnomalyConfig.replay_window_ms < u) →
      ∀ out ∈ (runAnalyze g hashFn defaultAnomalyConfig uav rssi ts st).1,
        ∀ a ∈ out, a.type ≠ AnomalyType.REPLAY_ATTACK := by
  intro ts
  induction ts with
  | nil =>
    intro st _ _ out hout
    simp [runAnalyze] at hout
  | cons t rest ih =>
    intro st hpw hinv out hout
    rw [runAnalyze_cons] at hout
    rcases List.mem_cons.mp hout with hhead | htail
    · subst hhead
      apply analyze_no_replay
      intro H hH2
      rcases hst : lookupHist st.history uav.id with _ | H0
      · rw [lookupHist_ensure_none hst] at hH2
        injection hH2 with hH2
        subst hH2
        have h0 : countDuplicates (emptyHistory uav.id) (hashFn uav) t
            defaultAnomalyConfig.replay_window_ms = 0 := rfl
        rw [h0]
        decide
      · rw [lookupHist_ensure_some hst] at hH2
        injection hH2 with hH2
        subst hH2
        have hzero : countDuplicates { H0 with id := uav.id } (hashFn uav) t
            defaultAnomalyConfig.replay_window_ms = 0 := by
          apply countDuplicates_zero
          intro y hy
          have h5 := hinv H0 hst y hy t (List.mem_cons_self t rest)
          omega
        rw [hzero]
        decide
    · refine ih (analyze g hashFn defaultAnomalyConfig st uav rssi t).2
        (List.Pairwise.of_cons hpw) ?_ out htail
      intro H2 h2 tm htm u hu
      rcases analyze_entry_timestamps g hashFn defaultAnomalyConfig st uav rssi t
          H2 h2 tm htm with ⟨H, hH, hmm⟩ | heq
      · exact hinv H hH tm hmm u (List.mem_cons_of_mem t hu)
      · subst heq
        exact (List.rel_of_pairwise_cons hpw) hu

/-! ## Claim theorems -/

/-- Claim C1, counterexample: parsing the Basic ID seed frame with the
envelope exactly as the specification writes it (`1E 16 FA FF 00`
followed by the 25-byte message) does NOT succeed, against the claimed
`success = true`: the AD length byte `0x1E = 30` declares one byte more
than the 29 bytes that follow it, so the AD-structure walk (which the
specification itself requires to refuse out-of-bound lengths) stops
without extracting a message. -/
theorem C1_seed_basic_id_counterexample :
    (parseFrame seedFrame1E (-50) TransportType.BT_LEGACY 0).success = false := by
  decide

/-- Claim C1, amended: with the consistent AD length byte `0x1D = 29`
(the form the repository's own ASTM tests build), the seed frame parses
exactly as claimed: success, protocol ASTM F3411,
id `DJI1234567890ABCD`, serial-number id type, helicopter-or-multirotor
aircraft type. -/
theorem C1_seed_basic_id :
    (parseFrame seedFrame1D (-50) TransportType.BT_LEGACY 0).success = true ∧
    (parseFrame seedFrame1D (-50) TransportType.BT_LEGACY 0).is_remote_id = true ∧
    (parseFrame seedFrame1D (-50) TransportType.BT_LEGACY 0).protocol =
      ProtocolType.ASTM_F3411 ∧
    (parseFrame seedFrame1D (-50) TransportType.BT_LEGACY 0).uav.id =
      "DJI1234567890ABCD" ∧
    (parseFrame seedFrame1D (-50) TransportType.BT_LEGACY 0).uav.id_type =
      UAVIdType.SERIAL_NUMBER ∧
    (parseFrame seedFrame1D (-50) TransportType.BT_LEGACY 0).uav.uav_type =
      UAVType.HELICOPTER_OR_MULTIROTOR := by
  refine ⟨by decide, by decide, by decide, by decide, by decide, by decide⟩

/-- Claim C2: the Message Pack decoder can never decode anything.  Its
declared sub-message size `((byte1 >> 4) & 0x0F) + 1` is at most 16, so
the `= 25` requirement fails for every input and every pack is rejected
without touching the UAV record — including the pack the repository's
own test `DecodeMessagePack_TwoMessages` builds and expects to succeed
with both sub-messages decoded (`message_count` + 2). -/
theorem C2_message_pack_never_decodes :
    (∀ recur data uav, astm.decodeMessagePackCore recur data uav = (false, uav)) ∧
    (astm.decodeMessage packSeedMessage UAVObject.init).1.success = false ∧
    (astm.decodeMessage packSeedMessage UAVObject.init).2 = UAVObject.init := by
  refine ⟨?_, by decide, by decide⟩
  intro recur data uav
  have h16 : ¬ ((data.getD 1 0 / 16) % 16 + 1 = 25) := by
    have h := Nat.mod_lt (data.getD 1 0 / 16) (show 0 < 16 by norm_num)
    omega
  unfold astm.decodeMessagePackCore
  by_cases hlen : data.length < 2
  · simp [hlen]
  · simp [hlen]
    omega

/-- Claim C3, counterexample: the Location message whose encoded
latitude is `0x7FFFFFFF` decodes to a `LocationVector` with
`valid = true` and latitude `214.7483647` degrees, outside the claimed
`[-90, 90]` range — the decoder multiplies the raw `int32` by `1e-7`
without clamping. -/
theorem C3_location_range_counterexample :
    (astm.decodeLocation locationBigLatMessage UAVObject.init).2.location.valid = true ∧
    ¬ ((astm.decodeLocation locationBigLatMessage UAVObject.init).2.location.latitude ≤ 90) := by
  have hlat : (astm.decodeLocation locationBigLatMessage UAVObject.init).2.location.latitude
      = astm.decodeLatitude (readLE32Signed locationBigLatMessage 5) := rfl
  have hv : readLE32Signed locationBigLatMessage 5 = (2147483647 : Int) := by decide
  refine ⟨rfl, ?_⟩
  rw [hlat, hv]
  norm_num [astm.decodeLatitude]

/-- Claim C3, amended: for every Location message over byte values,
decoding yields `valid = true`, a latitude and longitude inside the raw
`int32 × 1e-7` range `[-214.7483648, 214.7483647]` (the decoder does not
clamp to ±90 / ±180), and a direction inside `[0, 360)` whenever it is
not the NaN sentinel. -/
theorem C3_location_ranges (data : List Nat) (uav : UAVObject)
    (hbytes : ∀ b ∈ data, b < 256) :
    (astm.decodeLocation data uav).2.location.valid = true ∧
    -(2147483648 : ℚ) / 10000000 ≤ (astm.decodeLocation data uav).2.location.latitude ∧
    (astm.decodeLocation data uav).2.location.latitude ≤ (2147483647 : ℚ) / 10000000 ∧
    -(2147483648 : ℚ) / 10000000 ≤ (astm.decodeLocation data uav).2.location.longitude ∧
    (astm.decodeLocation data uav).2.location.longitude ≤ (2147483647 : ℚ) / 10000000 ∧
    (∀ d, (astm.decodeLocation data uav).2.location.direction = some d →
      0 ≤ d ∧ d < 360) := by
  have hlat := toInt32_range (readLE32 data 5)
  have hlon := toInt32_range (readLE32 data 9)
  refine ⟨rfl, ?_, ?_, ?_, ?_, ?_⟩
  · show -(2147483648 : ℚ) / 10000000 ≤ (toInt32 (readLE32 data 5) : ℚ) / 10000000
    have : ((-2147483648 : Int) : ℚ) ≤ (toInt32 (readLE32 data 5) : ℚ) := by
      exact_mod_cast hlat.1
    push_cast at this ⊢
    linarith
  · show (toInt32 (readLE32 data 5) : ℚ) / 10000000 ≤ (2147483647 : ℚ) / 10000000
    have : (toInt32 (readLE32 data 5) : ℚ) ≤ ((2147483647 : Int) : ℚ) := by
      exact_mod_cast hlat.2
    push_cast at this ⊢
    linarith
  · show -(2147483648 : ℚ) / 10000000 ≤ (toInt32 (readLE32 data 9) : ℚ) / 10000000
    have : ((-2147483648 : Int) : ℚ) ≤ (toInt32 (readLE32 data 9) : ℚ) := by
      exact_mod_cast hlon.1
    push_cast at this ⊢
    linarith
  · show (toInt32 (readLE32 data 9) : ℚ) / 10000000 ≤ (2147483647 : ℚ) / 10000000
    have : (toInt32 (readLE32 data 9) : ℚ) ≤ ((2147483647 : Int) : ℚ) := by
      exact_mod_cast hlon.2
    push_cast at this ⊢
    linarith
  · intro d hd
    have hb : data.getD 2 0 < 256 := getD_lt_256 hbytes 2
    have hle : ¬ (data.getD 2 0 > 360) := by omega
    simp only [astm.decodeLocation, astm.decodeDirection, hle, if_false] at hd
    have hd2 : ((data.getD 2 0 : ℚ)) = d := by
      simpa using hd
    constructor
    · rw [← hd2]
      positivity
    · rw [← hd2]
      exact_mod_cast lt_of_lt_of_le hb (by norm_num)

/-- Claim C3, witness for the amended theorem: the all-zero Location
message satisfies the byte hypothesis and the stated ranges. -/
theorem C3_location_ranges_witness :
    (∀ b ∈ List.replicate 25 0, b < 256) ∧
    ((astm.decodeLocation (List.replicate 25 0) UAVObject.init).2.location.valid = true ∧
      -(2147483648 : ℚ) / 10000000 ≤
        (astm.decodeLocation (List.replicate 25 0) UAVObject.init).2.location.latitude) :=
  ⟨by decide,
   (C3_location_ranges (List.replicate 25 0) UAVObject.init (by decide)).1,
   (C3_location_ranges (List.replicate 25 0) UAVObject.init (by decide)).2.1⟩

/-- Claim C4, counterexample: the truncated seed frame exactly as the
specification writes it (`1E 16 FA FF 00 02`) is not even recognised as
Remote ID (`is_remote_id = false`, against the claimed `true`): its AD
length byte `0x1E = 30` over-declares the 5 bytes that follow, so the
envelope scan terminates, and no other decoder matches a 6-byte
payload. -/
theorem C4_truncated_counterexample :
    (parseFrame truncatedFrame1E (-50) TransportType.BT_LEGACY 0).is_remote_id = false := by
  decide

/-- Claim C4, amended: with a consistent AD length byte the truncated
frame `05 16 FA FF 00 02` is recognised but fails to decode
(`is_remote_id = true`, `success = false`); and in general, whenever the
ASTM envelope detector recognises a payload whose decode fails — in
particular because too few bytes remain for a full 25-byte message —
`parse` returns `is_remote_id = true` and `success = false`. -/
theorem C4_truncated_envelope :
    ((parseFrame truncatedFrame05 (-50) TransportType.BT_LEGACY 0).is_remote_id = true ∧
     (parseFrame truncatedFrame05 (-50) TransportType.BT_LEGACY 0).success = false) ∧
    (∀ payload rssi transport timestamp,
      astm.isRemoteID payload = true →
      (astm.decode payload (frameUav rssi transport timestamp)).1.success = false →
      (parseFrame payload rssi transport timestamp).is_remote_id = true ∧
      (parseFrame payload rssi transport timestamp).success = false) := by
  refine ⟨⟨by decide, by decide⟩, ?_⟩
  intro payload rssi transport timestamp hrid hfail
  have hne : ¬ (payload.length = 0) := by
    intro h0
    simp [astm.isRemoteID, h0] at hrid
  simp only [parseFrame, hne, if_false, hrid, if_true, hfail]
  simp [hfail]

/-- Claim C4, witness: the amended theorem applied at the consistent
truncated frame. -/
theorem C4_truncated_envelope_witness :
    (parseFrame truncatedFrame05 (-60) TransportType.BT_LEGACY 7).is_remote_id = true ∧
    (parseFrame truncatedFrame05 (-60) TransportType.BT_LEGACY 7).success = false :=
  C4_truncated_envelope.2 truncatedFrame05 (-60) TransportType.BT_LEGACY 7
    (by decide) (by decide)

/-- Claim C5: merging an update for an already-stored non-empty id sets
the stored rssi and last_seen to the incoming values, increments the
stored message_count by one, overwrites each of
location/system/self_id/operator_id exactly when the incoming field is
valid, overwrites auth_data exactly when the incoming auth_data is
non-empty, leaves the remaining stored fields unchanged, and leaves
every other map entry unchanged. -/
theorem C5_session_update_merge (sm : SessionManager) (uav old : UAVObject)
    (hid : uav.id ≠ "") (hold : lookupUAV sm.uavs uav.id = some old) :
    lookupUAV (sm.update uav).2.1.uavs uav.id = some (mergeUAV old uav) ∧
    (mergeUAV old uav).rssi = uav.rssi ∧
    (mergeUAV old uav).last_seen = uav.last_seen ∧
    (mergeUAV old uav).message_count = old.message_count + 1 ∧
    (mergeUAV old uav).location =
      (if uav.location.valid then uav.location else old.location) ∧
    (mergeUAV old uav).system =
      (if uav.system.valid then uav.system else old.system) ∧
    (mergeUAV old uav).self_id =
      (if uav.self_id.valid then uav.self_id else old.self_id) ∧
    (mergeUAV old uav).operator_id =
      (if uav.operator_id.valid then uav.operator_id else old.operator_id) ∧
    (mergeUAV old uav).auth_data =
      (if uav.auth_data.isEmpty then old.auth_data else uav.auth_data) ∧
    (mergeUAV old uav).id = old.id ∧
    (mergeUAV old uav).id_type = old.id_type ∧
    (mergeUAV old uav).uav_type = old.uav_type ∧
    (mergeUAV old uav).protocol = old.protocol ∧
    (mergeUAV old uav).transport = old.transport ∧
    (∀ id2, id2 ≠ uav.id →
      lookupUAV (sm.update uav).2.1.uavs id2 = lookupUAV sm.uavs id2) := by
  have hu : (sm.update uav).2.1.uavs = replaceUAV sm.uavs uav.id (mergeUAV old uav) := by
    simp [SessionManager.update, hid, hold]
  refine ⟨?_, rfl, rfl, rfl, rfl, rfl, rfl, rfl, rfl, rfl, rfl, rfl, rfl, rfl, ?_⟩
  · rw [hu]
    exact lookupUAV_replace_self hold _
  · intro id2 h2
    rw [hu]
    exact lookupUAV_replace_other h2 _

/-- Claim C5, witness: a concrete merge over a single-entry session. -/
theorem C5_session_update_merge_witness :
    lookupUAV ((SessionManager.update
        { uavs := [("A", UAVObject.init)], timeout := 30000 }
        { UAVObject.init with id := "A", rssi := -42, last_seen := 9 }).2.1.uavs) "A" =
      some (mergeUAV UAVObject.init
        { UAVObject.init with id := "A", rssi := -42, last_seen := 9 }) :=
  (C5_session_update_merge { uavs := [("A", UAVObject.init)], timeout := 30000 }
    { UAVObject.init with id := "A", rssi := -42, last_seen := 9 } UAVObject.init
    (by decide) (by simp [lookupUAV])).1

/-- Claim C6: inside one `update` call with a non-empty id exactly one
event fires — `on_new` with the incoming record for a new id, otherwise
`on_update` with the post-merge stored record; an empty id fires
nothing; `update` never fires a timeout event; `cleanup` fires exactly
one timeout event per removed entry, each of which is expired; and
`clear` fires no events. -/
theorem C6_session_events :
    (∀ (sm : SessionManager) (uav : UAVObject), uav.id ≠ "" →
      (lookupUAV sm.uavs uav.id = none ∧
        (sm.update uav).2.2 = [SMEvent.newUAV uav]) ∨
      (∃ old, lookupUAV sm.uavs uav.id = some old ∧
        (sm.update uav).2.2 = [SMEvent.updUAV (mergeUAV old uav)])) ∧
    (∀ (sm : SessionManager) (uav : UAVObject), uav.id = "" →
      (sm.update uav).2.2 = []) ∧
    (∀ (sm : SessionManager) (uav : UAVObject) (e : SMEvent) (u : UAVObject),
      e ∈ (sm.update uav).2.2 → e ≠ SMEvent.timeoutUAV u) ∧
    (∀ (sm : SessionManager) (now : Nat),
      (sm.cleanup now).2.2 =
        (expiredEntries now sm).map (fun p => SMEvent.timeoutUAV p.2) ∧
      (sm.cleanup now).1 = (expiredEntries now sm).map Prod.fst ∧
      (∀ p ∈ expiredEntries now sm, now - p.2.last_seen > sm.timeout)) ∧
    (∀ sm : SessionManager, (SessionManager.clear sm).2 = []) := by
  refine ⟨?_, ?_, ?_, ?_, ?_⟩
  · intro sm uav hid
    rcases hlk : lookupUAV sm.uavs uav.id with _ | old
    · left
      exact ⟨rfl, by simp [SessionManager.update, hid, hlk]⟩
    · right
      exact ⟨old, rfl, by simp [SessionManager.update, hid, hlk]⟩
  · intro sm uav hid
    simp [SessionManager.update, hid]
  · intro sm uav e u he
    by_cases hid : uav.id = ""
    · simp [SessionManager.update, hid] at he
    · rcases hlk : lookupUAV sm.uavs uav.id with _ | old
      · simp [SessionManager.update, hid, hlk] at he
        simp [he]
      · simp [SessionManager.update, hid, hlk] at he
        simp [he]
  · intro sm now
    refine ⟨rfl, rfl, ?_⟩
    intro p hp
    have := List.of_mem_filter hp
    simpa using this
  · intro sm
    rfl

/-- Claim C6, witness: a concrete `update` of a fresh id fires exactly
the `on_new` event. -/
theorem C6_session_events_witness :
    (SessionManager.update { uavs := [], timeout := 30000 }
        { UAVObject.init with id := "A" }).2.2 =
      [SMEvent.newUAV { UAVObject.init with id := "A" }] := by
  have h := C6_session_events.1 { uavs := [], timeout := 30000 }
    { UAVObject.init with id := "A" } (by decide)
  rcases h with ⟨_, h2⟩ | ⟨old, hold, _⟩
  · exact h2
  · simp [lookupUAV] at hold

/-- Claim C9: the bit reader's bounds check `pos_ + count > length_`
wraps for counts near `SIZE_MAX`.  On a 5-byte buffer at position 1,
`skip(2^64 - 1)` — a skip far past the end of the buffer — does NOT
fail with `out_of_range`; it succeeds and moves the cursor backwards to
position 0, contradicting the claimed never-wrapping arithmetic. -/
theorem C9_bitreader_wraparound :
    utils.BitReader.skip { length := 5, pos := 1, bit_pos := 0 } (utils.W64 - 1) =
      Except.ok { length := 5, pos := 0, bit_pos := 0 } ∧
    utils.BitReader.remaining { length := 5, pos := 1, bit_pos := 0 } < utils.W64 - 1 := by
  exact ⟨rfl, by decide⟩

/-- Claim C10: analysing a `UAVObject` with an empty id returns no
anomalies and leaves the detector state — history map and counters —
entirely unchanged, for every geodesic instantiation, hash function,
configuration and prior state. -/
theorem C10_analyze_empty_id (g : analysis.GeoFns) (hashFn : UAVObject → Nat)
    (cfg : analysis.AnomalyConfig) (st : analysis.ADState) (uav : UAVObject)
    (rssi : Int) (now : Nat) (h : uav.id = "") :
    analysis.analyze g hashFn cfg st uav rssi now = ([], st) := by
  unfold analysis.analyze
  simp [h]

/-- Claim C10, witness: the empty-id theorem at a concrete call. -/
theorem C10_analyze_empty_id_witness :
    analysis.analyze analysis.geoZero (fun _ => 0) analysis.defaultAnomalyConfig
      analysis.emptyADState UAVObject.init (-50) 3 = ([], analysis.emptyADState) :=
  C10_analyze_empty_id analysis.geoZero (fun _ => 0) analysis.defaultAnomalyConfig
    analysis.emptyADState UAVObject.init (-50) 3 rfl

/-- Claim C7, counterexample: an update with a non-empty id whose
location is not valid (as a decoded Basic-ID-only record is) satisfies
every hypothesis of the claim — `min_duplicate_count + 1` identical
updates inside the replay window — yet no replay anomaly is ever
produced, because the detector only accumulates history from
valid-location updates. -/
theorem C7_replay_counterexample :
    invalidLocUAV.id ≠ "" ∧
    defaultAnomalyConfig.min_duplicate_count + 1 ≤ ([0, 1, 2, 3] : List Nat).length ∧
    (∀ a ∈ ([0, 1, 2, 3] : List Nat), ∀ b ∈ ([0, 1, 2, 3] : List Nat),
      a - b < defaultAnomalyConfig.replay_window_ms) ∧
    ¬ ∃ out ∈ (runAnalyze geoZero (fun _ => 0) defaultAnomalyConfig invalidLocUAV (-40)
        [0, 1, 2, 3] emptyADState).1,
      ∃ a ∈ out, a.type = AnomalyType.REPLAY_ATTACK := by
  refine ⟨by decide, by decide, by decide, by decide⟩

/-- Claim C7, amended (valid-location updates): feeding at least
`min_duplicate_count + 1` identical valid-location updates with a
non-empty id, all inside one replay window, produces at least one
replay-attack anomaly with critical severity and confidence
`min(1, duplicate_count / 10)`; the same updates spaced pairwise more
than the replay window apart produce no replay anomaly at all.  Both
halves hold for every geodesic instantiation and every hash function;
the detector runs under the default configuration. -/
theorem C7_replay_detection :
    (∀ (g : GeoFns) (hashFn : UAVObject → Nat) (uav : UAVObject) (rssi : Int)
        (ts : List Nat),
      uav.id ≠ "" → uav.location.valid = true →
      defaultAnomalyConfig.min_duplicate_count + 1 ≤ ts.length →
      (∀ a ∈ ts, ∀ b ∈ ts, a - b < defaultAnomalyConfig.replay_window_ms) →
      ∃ out ∈ (runAnalyze g hashFn defaultAnomalyConfig uav rssi ts emptyADState).1,
        ∃ a ∈ out, a.type = AnomalyType.REPLAY_ATTACK ∧
          a.severity = AnomalySeverity.CRITICAL ∧
          a.confidence = min 1 (a.actual_value / 10)) ∧
    (∀ (g : GeoFns) (hashFn : UAVObject → Nat) (uav : UAVObject) (rssi : Int)
        (ts : List Nat),
      ts.Pairwise (fun a b => a + defaultAnomalyConfig.replay_window_ms < b) →
      ∀ out ∈ (runAnalyze g hashFn defaultAnomalyConfig uav rssi ts emptyADState).1,
        ∀ a ∈ out, a.type ≠ AnomalyType.REPLAY_ATTACK) := by
  constructor
  · intro g hashFn uav rssi ts hid hval hlen hwin
    have hmin : defaultAnomalyConfig.min_duplicate_count = 3 := rfl
    have hwinval : defaultAnomalyConfig.replay_window_ms = 5000 := rfl
    have hne : ts ≠ [] := by
      intro h0
      rw [h0] at hlen
      rw [hmin] at hlen
      simp at hlen
    have hts : ts.dropLast ++ [ts.getLast hne] = ts := List.dropLast_append_getLast hne
    have hinitlen3 : 3 ≤ ts.dropLast.length := by
      rw [List.length_dropLast]
      rw [hmin] at hlen
      omega
    obtain ⟨t1, rest, hinit2⟩ : ∃ t1 rest, ts.dropLast = t1 :: rest := by
      cases hi : ts.dropLast with
      | nil => rw [hi] at hinitlen3; simp at hinitlen3
      | cons a l => exact ⟨a, l, rfl⟩
    have hstart := analyze_entry_none_valid g hashFn defaultAnomalyConfig emptyADState
      uav rssi t1 hid hval rfl
    have hs1 : histSpec uav.location rssi (hashFn uav) ([] ++ [t1])
        ((emptyHistory uav.id).addPosition uav.location rssi t1 (hashFn uav)) :=
      histSpec_addPosition uav.location rssi (hashFn uav) [] (emptyHistory uav.id) t1
        ⟨rfl, rfl, rfl, rfl⟩
    obtain ⟨H2, hH2, hspec⟩ := runAnalyze_entry g hashFn defaultAnomalyConfig uav rssi
      hid hval rest ([] ++ [t1])
      (analyze g hashFn defaultAnomalyConfig emptyADState uav rssi t1).2
      ((emptyHistory uav.id).addPosition uav.location rssi t1 (hashFn uav))
      hstart hs1
    have hstF : (runAnalyze g hashFn defaultAnomalyConfig uav rssi ts.dropLast
        emptyADState).2 =
        (runAnalyze g hashFn defaultAnomalyConfig uav rssi rest
          (analyze g hashFn defaultAnomalyConfig emptyADState uav rssi t1).2).2 := by
      rw [hinit2, runAnalyze_cons]
    have hspec2 : histSpec uav.location rssi (hashFn uav) ts.dropLast H2 := by
      rw [hinit2]
      simpa using hspec
    obtain ⟨hp, hr, htt, hm⟩ := hspec2
    have hcount : countDuplicates H2 (hashFn uav) (ts.getLast hne)
        defaultAnomalyConfig.replay_window_ms = min ts.dropLast.length 100 := by
      have hres := countDuplicates_full H2 (hashFn uav) (ts.getLast hne)
        defaultAnomalyConfig.replay_window_ms ?_ ?_ ?_
      · rw [hres, hm, List.length_replicate]
      · intro x hx
        rw [hm] at hx
        exact List.eq_of_mem_replicate hx
      · rw [hm, htt, List.length_replicate, List.length_drop]
        omega
      · intro y hy
        rw [htt] at hy
        have hy2 : y ∈ ts.dropLast := List.Sublist.mem hy (List.drop_sublist _ _)
        have hy3 : y ∈ ts := List.Sublist.mem hy2 (List.dropLast_sublist ts)
        exact hwin (ts.getLast hne) (List.getLast_mem hne) y hy3
    have hcnt : defaultAnomalyConfig.min_duplicate_count ≤
        countDuplicates H2 (hashFn uav) (ts.getLast hne)
          defaultAnomalyConfig.replay_window_ms := by
      rw [hcount, hmin]
      omega
    have hH2F : lookupHist (runAnalyze g hashFn defaultAnomalyConfig uav rssi
        ts.dropLast emptyADState).2.history uav.id = some H2 := by
      rw [hstF]
      exact hH2
    obtain ⟨a, ha, hprops⟩ := analyze_replay_fires g hashFn defaultAnomalyConfig
      (runAnalyze g hashFn defaultAnomalyConfig uav rssi ts.dropLast emptyADState).2
      uav rssi (ts.getLast hne) H2 hid hH2F hcnt
    refine ⟨(analyze g hashFn defaultAnomalyConfig
      (runAnalyze g hashFn defaultAnomalyConfig uav rssi ts.dropLast emptyADState).2
      uav rssi (ts.getLast hne)).1, ?_, a, ha, hprops⟩
    have hgoal : (runAnalyze g hashFn defaultAnomalyConfig uav rssi ts emptyADState).1 =
        (runAnalyze g hashFn defaultAnomalyConfig uav rssi ts.dropLast emptyADState).1 ++
          (runAnalyze g hashFn defaultAnomalyConfig uav rssi [ts.getLast hne]
            (runAnalyze g hashFn defaultAnomalyConfig uav rssi ts.dropLast
              emptyADState).2).1 := by
      conv_lhs => rw [← hts]
      rw [runAnalyze_append]
    rw [hgoal]
    apply List.mem_append_right
    rw [runAnalyze_cons]
    exact List.mem_cons_self _ _
  · intro g hashFn uav rssi ts hpw
    apply runAnalyze_no_replay_general g hashFn uav rssi ts emptyADState hpw
    intro H hH
    exact absurd hH (by simp [emptyADState, lookupHist])

/-- Claim C7, witness: four identical valid-location updates inside one
window fire the replay anomaly. -/
theorem C7_replay_detection_witness :
    ∃ out ∈ (runAnalyze geoZero (fun _ => 7) defaultAnomalyConfig validLocUAV (-40)
        [0, 1, 2, 3] emptyADState).1,
      ∃ a ∈ out, a.type = AnomalyType.REPLAY_ATTACK ∧
        a.severity = AnomalySeverity.CRITICAL ∧
        a.confidence = min 1 (a.actual_value / 10) :=
  C7_replay_detection.1 geoZero (fun _ => 7) validLocUAV (-40) [0, 1, 2, 3]
    (by decide) rfl (by decide) (by decide)

/-- Reduction of `predictPosition` to its linear-extrapolation branch:
at least two raw points, at least two points in the series actually
used, and a positive time difference between its last two points. -/
theorem predictPosition_formula (g : analysis.GeoFns) (st : List (String × Trajectory))
    (id : String) (traj : Trajectory) (ahead now : Nat)
    (pts : List TrajectoryPoint) (p1 p2 : TrajectoryPoint)
    (htraj : lookupTraj st id = some traj)
    (hpts : pts = if traj.smoothed_points.isEmpty then traj.points else traj.smoothed_points)
    (hp1 : p1 = pts.getD (pts.length - 2) TrajectoryPoint.init)
    (hp2 : p2 = pts.getLastD TrajectoryPoint.init)
    (hlen : ¬ traj.points.length < 2)
    (hplen : ¬ pts.length < 2)
    (ht : ¬ (((p2.timestamp : ℚ) - (p1.timestamp : ℚ)) / 1000 ≤ 0)) :
    predictPosition g st id ahead now =
      { latitude := g.projectLat p2.latitude p2.longitude
          (g.bearing p1.latitude p1.longitude p2.latitude p2.longitude)
          ((g.dist p1.latitude p1.longitude p2.latitude p2.longitude /
            (((p2.timestamp : ℚ) - (p1.timestamp : ℚ)) / 1000)) * ((ahead : ℚ) / 1000))
        longitude := g.projectLon p2.latitude p2.longitude
          (g.bearing p1.latitude p1.longitude p2.latitude p2.longitude)
          ((g.dist p1.latitude p1.longitude p2.latitude p2.longitude /
            (((p2.timestamp : ℚ) - (p1.timestamp : ℚ)) / 1000)) * ((ahead : ℚ) / 1000))
        altitude := p2.altitude + ((p2.altitude - p1.altitude) /
          (((p2.timestamp : ℚ) - (p1.timestamp : ℚ)) / 1000)) * ((ahead : ℚ) / 1000)
        confidence := max 0 (1 - ((ahead : ℚ) / 1000) / 30)
        error_radius_m := (g.dist p1.latitude p1.longitude p2.latitude p2.longitude /
          (((p2.timestamp : ℚ) - (p1.timestamp : ℚ)) / 1000)) * ((ahead : ℚ) / 1000) * (1 / 10) +
          ((ahead : ℚ) / 1000) * 2
        prediction_time := now + ahead } := by
  subst hpts
  subst hp1
  subst hp2
  unfold predictPosition
  rw [htraj]
  simp only [if_neg hlen, if_neg hplen, if_neg ht]

/-- Reduction of `predictPosition` to its stale branch: the last two
used points do not show positive elapsed time, so the code returns the
last position with the fixed confidence `0.5`. -/
theorem predictPosition_stale (g : analysis.GeoFns) (st : List (String × Trajectory))
    (id : String) (traj : Trajectory) (ahead now : Nat)
    (pts : List TrajectoryPoint) (p1 p2 : TrajectoryPoint)
    (htraj : lookupTraj st id = some traj)
    (hpts : pts = if traj.smoothed_points.isEmpty then traj.points else traj.smoothed_points)
    (hp1 : p1 = pts.getD (pts.length - 2) TrajectoryPoint.init)
    (hp2 : p2 = pts.getLastD TrajectoryPoint.init)
    (hlen : ¬ traj.points.length < 2)
    (hplen : ¬ pts.length < 2)
    (ht : ((p2.timestamp : ℚ) - (p1.timestamp : ℚ)) / 1000 ≤ 0) :
    predictPosition g st id ahead now =
      { latitude := p2.latitude, longitude := p2.longitude, altitude := p2.altitude
        confidence := 1 / 2, error_radius_m := 0, prediction_time := now + ahead } := by
  subst hpts
  subst hp1
  subst hp2
  unfold predictPosition
  rw [htraj]
  simp only [if_neg hlen, if_neg hplen, if_pos ht]

/-- Claim C8, counterexample: a tracked id with two trajectory points
whose timestamps are equal gets confidence `0.5` from
`predictPosition`, not the claimed `max(0, 1 - Δt/30 s)`, which is `0`
at the 30-second horizon. -/
theorem C8_predict_confidence_counterexample :
    (predictPosition analysis.geoZero [("T", equalTimeTraj)] "T" 30000 0).confidence = 1 / 2 ∧
    max 0 (1 - (((30000 : Nat) : ℚ) / 1000) / 30) = 0 ∧
    ((1 : ℚ) / 2) ≠ 0 := by
  refine ⟨?_, by norm_num, by norm_num⟩
  rw [predictPosition_stale analysis.geoZero [("T", equalTimeTraj)] "T" equalTimeTraj
    30000 0 equalTimeTraj.points
    (equalTimeTraj.points.getD 0 TrajectoryPoint.init)
    (equalTimeTraj.points.getLastD TrajectoryPoint.init)
    rfl rfl rfl rfl (by decide) (by decide) (by norm_num [equalTimeTraj])]

/-- Claim C8, amended: an untracked id or fewer than two raw points
give confidence 0; with at least two points in the used series and
strictly increasing timestamps over the last two, the confidence is
exactly `max(0, 1 - Δt/30 s)` — hence non-increasing in the horizon —
and the error radius is exactly `speed · Δt · 0.1 + Δt · 2` metres for
the estimated speed `dist(p1, p2) / time_diff`. -/
theorem C8_predict_confidence (g : analysis.GeoFns) (st : List (String × Trajectory))
    (id : String) (ahead ahead2 now : Nat) :
    (lookupTraj st id = none → (predictPosition g st id ahead now).confidence = 0) ∧
    (∀ traj, lookupTraj st id = some traj → traj.points.length < 2 →
      (predictPosition g st id ahead now).confidence = 0) ∧
    (∀ traj pts p1 p2, lookupTraj st id = some traj →
      pts = (if traj.smoothed_points.isEmpty then traj.points else traj.smoothed_points) →
      p1 = pts.getD (pts.length - 2) TrajectoryPoint.init →
      p2 = pts.getLastD TrajectoryPoint.init →
      2 ≤ traj.points.length → 2 ≤ pts.length →
      p1.timestamp < p2.timestamp →
      (predictPosition g st id ahead now).confidence =
        max 0 (1 - ((ahead : ℚ) / 1000) / 30) ∧
      (predictPosition g st id ahead now).error_radius_m =
        (g.dist p1.latitude p1.longitude p2.latitude p2.longitude /
          (((p2.timestamp : ℚ) - (p1.timestamp : ℚ)) / 1000)) * ((ahead : ℚ) / 1000) * (1 / 10) +
          ((ahead : ℚ) / 1000) * 2 ∧
      (ahead ≤ ahead2 →
        (predictPosition g st id ahead2 now).confidence ≤
          (predictPosition g st id ahead now).confidence)) := by
  refine ⟨?_, ?_, ?_⟩
  · intro hnone
    unfold predictPosition
    rw [hnone]
  · intro traj htraj hlt
    unfold predictPosition
    rw [htraj]
    simp only [if_pos hlt]
  · intro traj pts p1 p2 htraj hpts hp1 hp2 hlen hplen ht
    have hlen2 : ¬ traj.points.length < 2 := Nat.not_lt.mpr hlen
    have hplen2 : ¬ pts.length < 2 := Nat.not_lt.mpr hplen
    have htsub : (0 : ℚ) < ((p2.timestamp : ℚ) - (p1.timestamp : ℚ)) / 1000 := by
      have : (p1.timestamp : ℚ) < (p2.timestamp : ℚ) := by exact_mod_cast ht
      have hs : (0 : ℚ) < (p2.timestamp : ℚ) - (p1.timestamp : ℚ) := by linarith
      positivity
    have htn : ¬ (((p2.timestamp : ℚ) - (p1.timestamp : ℚ)) / 1000 ≤ 0) :=
      not_le.mpr htsub
    have hred := predictPosition_formula g st id traj ahead now pts p1 p2
      htraj hpts hp1 hp2 hlen2 hplen2 htn
    have hred2 := predictPosition_formula g st id traj ahead2 now pts p1 p2
      htraj hpts hp1 hp2 hlen2 hplen2 htn
    refine ⟨by rw [hred], by rw [hred], ?_⟩
    intro hle
    rw [hred, hred2]
    have hcast : ((ahead : ℚ) / 1000) / 30 ≤ ((ahead2 : ℚ) / 1000) / 30 := by
      gcongr
    simp only []
    exact max_le_max le_rfl (by linarith)

/-- Claim C8, witness: the amended theorem at a concrete trajectory
with points one second apart and a 6-second horizon. -/
theorem C8_predict_confidence_witness :
    (predictPosition analysis.geoZero [("S", secondApartTraj)] "S" 6000 0).confidence =
      max 0 (1 - (((6000 : Nat) : ℚ) / 1000) / 30) :=
  ((C8_predict_confidence analysis.geoZero [("S", secondApartTraj)] "S" 6000 6000 0).2.2
    secondApartTraj secondApartTraj.points
    (secondApartTraj.points.getD 0 TrajectoryPoint.init)
    (secondApartTraj.points.getLastD TrajectoryPoint.init)
    rfl rfl rfl rfl (by decide) (by decide) (by decide)).1

end ORIP
